import Mathlib

/-!
# Verification of the eBRT normalization-and-submission pipeline

A shallow embedding of the backend's payload rules engine
(`buildBackendPayload`, `mapInputToBackend`, `buildFieldMaps`) and of the
`POST /api/send-to-validator` handler, together with proofs of the spec's
testable properties.

JSON values are modelled by `JVal`; JavaScript objects are association
lists in insertion order (property set replaces the first occurrence or
appends; property delete removes the key).  JavaScript numbers are
modelled as integers: the rules engine only ever compares numbers to the
small enum codes 0..6 and compares array lengths, so no non-integer
arithmetic occurs.  `Number(x)` conversions that yield `NaN` are modelled
as `none`.
-/

/-- A JSON/JavaScript value.  `undefined` is represented by the *absence*
of a key (an `Option.none` lookup), never as a stored value. -/
inductive JVal where
  | null
  | bool (b : Bool)
  | num (n : Int)
  | str (s : String)
  | arr (elems : List JVal)
  | obj (fields : List (String × JVal))

/-- A JavaScript object: keys to values, in insertion order. -/
abbrev JObj := List (String × JVal)

/-- A grouped object: group name to group fields.  The backend template and
every intermediate payload of the rules engine have this two-level shape. -/
abbrev GObj := List (String × JObj)

/-- Property read on an association list (first occurrence wins, as in a
JavaScript object, where keys are unique). -/
def alookup {α : Type} : List (String × α) → String → Option α
  | [], _ => none
  | (k, v) :: rest, key => if k = key then some v else alookup rest key

/-- Property write: replace the first occurrence, else append
(JavaScript `o[k] = v`). -/
def aset {α : Type} : List (String × α) → String → α → List (String × α)
  | [], key, v => [(key, v)]
  | (k, w) :: rest, key, v =>
      if k = key then (k, v) :: rest else (k, w) :: aset rest key v

/-- Property delete (JavaScript `delete o[k]`). -/
def adel {α : Type} (l : List (String × α)) (key : String) : List (String × α) :=
  l.filter (fun kv => kv.1 ≠ key)

/-- Map over the values of an association list, letting the function see the
key (`Object.entries` iteration that rewrites each value in place). -/
def keyedMap {α β : Type} (h : String → α → β) (l : List (String × α)) :
    List (String × β) :=
  l.map (fun kv => (kv.1, h kv.1 kv.2))

theorem alookup_aset_self {α : Type} (l : List (String × α)) (k : String) (v : α) :
    alookup (aset l k v) k = some v := by
  induction l with
  | nil => simp [aset, alookup]
  | cons kv rest ih =>
    by_cases h : kv.1 = k
    · simp [aset, alookup, h]
    · simp [aset, alookup, h, ih]

theorem alookup_aset_other {α : Type} (l : List (String × α)) {k k' : String}
    (h : k' ≠ k) (v : α) : alookup (aset l k' v) k = alookup l k := by
  induction l with
  | nil => simp [aset, alookup, h]
  | cons kv rest ih =>
    by_cases hk : kv.1 = k'
    · simp [aset, alookup, hk, h]
    · simp only [aset, hk, if_false, alookup]
      by_cases hk2 : kv.1 = k
      · simp [hk2]
      · simp [hk2, ih]

theorem alookup_adel_self {α : Type} (l : List (String × α)) (k : String) :
    alookup (adel l k) k = none := by
  induction l with
  | nil => simp [adel, alookup]
  | cons kv rest ih =>
    by_cases h : kv.1 = k
    · simpa [adel, h] using ih
    · simpa [adel, alookup, h] using ih

theorem alookup_adel_other {α : Type} (l : List (String × α)) {k k' : String}
    (h : k' ≠ k) : alookup (adel l k') k = alookup l k := by
  induction l with
  | nil => simp [adel, alookup]
  | cons kv rest ih =>
    by_cases hk : kv.1 = k'
    · have hne : kv.1 ≠ k := by rw [hk]; exact h
      rw [show adel (kv :: rest) k' = adel rest k' by simp [adel, hk]]
      rw [show alookup (kv :: rest) k = alookup rest k by simp [alookup, hne]]
      exact ih
    · rw [show adel (kv :: rest) k' = kv :: adel rest k' by simp [adel, hk]]
      by_cases hk2 : kv.1 = k
      · simp [alookup, hk2]
      · simp only [alookup, hk2, if_false]
        exact ih

theorem alookup_keyedMap {α β : Type} (h : String → α → β)
    (l : List (String × α)) (k : String) :
    alookup (keyedMap h l) k = (alookup l k).map (h k) := by
  induction l with
  | nil => simp [keyedMap, alookup]
  | cons kv rest ih =>
    by_cases hk : kv.1 = k
    · simp [keyedMap, alookup, hk]
    · simp only [keyedMap, List.map, alookup, hk, if_false]
      simpa [keyedMap] using ih

/-! ## JavaScript primitives used by the pipeline -/

/-- JavaScript truthiness (`x ? … : …`).  Falsy values are `null`, `false`,
`0`, and `""`; arrays and objects are always truthy.  (`undefined` and `NaN`
never occur as stored values in this pipeline, see `JVal`.) -/
def truthy : JVal → Bool
  | .null => false
  | .bool b => b
  | .num n => n != 0
  | .str s => s != ""
  | .arr _ => true
  | .obj _ => true

/-- Integer parse for `Number(string)`: optional surrounding whitespace,
optional sign, decimal digits; the empty (trimmed) string is `0`.  Other
JavaScript numeric spellings (floats, hex, exponents) are not needed by the
rules engine, which only compares the result with the enum codes 0..6. -/
def parseDigits : List Char → Option Nat
  | [] => none
  | cs => cs.foldl
      (fun acc c =>
        match acc with
        | none => none
        | some a => if c.isDigit then some (a * 10 + (c.toNat - '0'.toNat)) else none)
      (some 0)

def parseJsNumber (s : String) : Option Int :=
  let t := s.trim
  if t = "" then some 0
  else
    match t.toList with
    | '+' :: rest => (parseDigits rest).map (fun n => (n : Int))
    | '-' :: rest => (parseDigits rest).map (fun n => -(n : Int))
    | cs => (parseDigits cs).map (fun n => (n : Int))

/-- JavaScript `Number(x)`, returning `none` for `NaN`.  Arrays convert via
their string form: `[]` and `[null]` are `0`, a one-element array converts
like its element, everything else is `NaN`. -/
def jsNumber : JVal → Option Int
  | .null => some 0
  | .bool b => some (if b then 1 else 0)
  | .num n => some n
  | .str s => parseJsNumber s
  | .obj _ => none
  | .arr [] => some 0
  | .arr [x] =>
      match x with
      | .bool _ => none      -- String([true]) = "true", not numeric
      | .obj _ => none
      | y => jsNumber y
  | .arr (_ :: _ :: _) => none

/-- `Number(x)` where `x` may be `undefined` (an absent property):
`Number(undefined)` is `NaN`. -/
def jsNumberOpt : Option JVal → Option Int
  | none => none
  | some v => jsNumber v

/-- `k.endsWith('_Flag')` (the checkbox naming convention, `endsWithFlag`
in the source). -/
def strEndsWith (s suffix : String) : Bool :=
  List.isPrefixOf suffix.toList.reverse s.toList.reverse

def endsWithFlag (k : String) : Bool := strEndsWith k "_Flag"

/-- `key.split('.')` for the final defensive scrub. -/
def splitDotAux : List Char → List Char → List String
  | [], acc => [String.mk acc.reverse]
  | c :: rest, acc =>
      if c = '.' then String.mk acc.reverse :: splitDotAux rest []
      else splitDotAux rest (c :: acc)

/-- `const [g, f] = key.split('.')`.  When the key contains no dot, `f` is
`undefined`, which a subsequent property lookup coerces to the string
`"undefined"`. -/
def splitPair (s : String) : String × String :=
  match splitDotAux s.toList [] with
  | [] => ("", "undefined")
  | [g] => (g, "undefined")
  | g :: f :: _ => (g, f)

/-- `x ?? fallback` applied to a possibly-absent property value: the
fallback is used when the value is absent (`undefined`) or `null`. -/
def nonNullish : Option JVal → Option JVal
  | none => none
  | some .null => none
  | some v => some v

def nullishGet (primary fallback : Option JVal) : Option JVal :=
  match nonNullish primary with
  | some v => some v
  | none => fallback

/-- `typeof x === 'object' && x` (arrays included, `null` excluded by the
accompanying truthiness guard). -/
def isJsObject : JVal → Bool
  | .obj _ => true
  | .arr _ => true
  | _ => false

/-- `Object.entries(x)` for the values the mapper iterates: object fields in
order; array elements under their index keys; anything else has no
enumerable entries. -/
def jsEntries : JVal → List (String × JVal)
  | .obj fs => fs
  | .arr xs => xs.enum.map (fun p => (toString p.1, p.2))
  | _ => []

/-- Property read on an arbitrary value (`x?.k` / `x[k]`): objects by key,
arrays by index key or `length`, strings expose `length`, all other reads
give `undefined`. -/
def jsGetProp : JVal → String → Option JVal
  | .obj fs, k => alookup fs k
  | .arr xs, k =>
      if k = "length" then some (.num xs.length)
      else alookup (jsEntries (.arr xs)) k
  | .str s, k => if k = "length" then some (.num s.length) else none
  | _, _ => none

/-! ## The specification document and its derived field maps

`src/server.js` loads `json/driveCycleOption.json` at startup
(`loadSpec`, lines 459-492) and derives `uiMap` / `calculatedKeys` /
`fieldTypeByBackendKey` from it once (`buildFieldMaps`, lines 504-525). -/

/-- One `ui_schema` field descriptor `{ key, backend_key, type, show_only }`. -/
structure UiField where
  key : String
  backend_key : Option String
  ftype : Option String
  show_only : Option JVal

/-- The parts of the loaded specification document the pipeline reads:
`backend_payload_template` (group → backend key → default) and
`ui_schema` (group → field descriptors). -/
structure Spec where
  template : GObj
  ui_schema : List (String × List UiField)

/-- The derived lookup structures (`buildFieldMaps`'s result). -/
structure FieldMaps where
  uiMap : List (String × List (String × String))
  calculatedKeys : List String
  fieldTypeByBackendKey : List (String × List (String × String))

/-- `Set.prototype.add`: insertion order, deduplicated. -/
def addCalcKey (ks : List String) (k : String) : List String :=
  if ks.contains k then ks else ks ++ [k]

/-- `buildFieldMaps(spec)` (source lines 504-525): walk `ui_schema`,
recording the UI→backend rename for every field with a truthy
`backend_key`, its type (defaulting to `'unknown'`), and the fully
qualified `group.backendKey` of every field whose `type` is
`'calculated'` or whose `show_only` is strictly `true`. -/
def buildFieldMaps (spec : Spec) : FieldMaps :=
  spec.ui_schema.foldl
    (fun fm entry =>
      let group := entry.1
      let fm : FieldMaps :=
        { fm with
          uiMap := if (alookup fm.uiMap group).isSome then fm.uiMap
                   else aset fm.uiMap group []
          fieldTypeByBackendKey :=
            if (alookup fm.fieldTypeByBackendKey group).isSome then
              fm.fieldTypeByBackendKey
            else aset fm.fieldTypeByBackendKey group [] }
      entry.2.foldl
        (fun fm f =>
          match f.backend_key with
          | none => fm
          | some bk =>
            if bk = "" then fm     -- falsy backend_key: field skipped
            else
              let gm := (alookup fm.uiMap group).getD []
              let tm := (alookup fm.fieldTypeByBackendKey group).getD []
              let fty := match f.ftype with
                | none => "unknown"
                | some t => if t = "" then "unknown" else t
              let fm :=
                { fm with
                  uiMap := aset fm.uiMap group (aset gm f.key bk)
                  fieldTypeByBackendKey :=
                    aset fm.fieldTypeByBackendKey group (aset tm bk fty) }
              let isCalc :=
                (match f.ftype with | some "calculated" => true | _ => false) ||
                (match f.show_only with | some (.bool true) => true | _ => false)
              if isCalc then
                { fm with calculatedKeys :=
                    addCalcKey fm.calculatedKeys (group ++ "." ++ bk) }
              else fm)
        fm)
    ⟨[], [], []⟩

/-- `mapInputToBackend(inputData)` (source lines 533-553): for every group
of the input that is itself an object, first copy every caller-supplied key
through verbatim, then overwrite with the UI→backend renames of that group. -/
def mapInputToBackend (uiMap : List (String × List (String × String)))
    (inputData : JVal) : GObj :=
  if ¬ isJsObject inputData then []
  else
    (jsEntries inputData).foldl
      (fun mapped gv =>
        let group := gv.1
        let groupVal := gv.2
        if ¬ (truthy groupVal && isJsObject groupVal) then mapped
        else
          let mg := (alookup mapped group).getD []
          let mg := (jsEntries groupVal).foldl (fun m kv => aset m kv.1 kv.2) mg
          let gm := (alookup uiMap group).getD []
          let mg := gm.foldl
            (fun m r =>
              match jsGetProp groupVal r.1 with
              | some v => aset m r.2 v
              | none => m)
            mg
          aset mapped group mg)
      []

/-! ## PayloadBuilder — the rules engine (`buildBackendPayload`, lines 558-693)

The engine throws `Error` objects with `status = 400` for the two
scenario-rule violations; the spec's taxonomy names these `InvalidScenario`
and `MissingRequiredField`.  An access on a missing `Driving_Cycle` /
`Scenario_data` group would be a runtime `TypeError`; that is modelled by
`typeError` (unreachable for the real specification document, whose
template has both groups). -/

inductive BuildErr where
  | invalidScenario (msg : String)
  | missingRequiredField (msg : String)
  | typeError

/-- The base merge (lines 563-583): for every group/key of the template,
skip calculated keys (keeping the template default), normalize a
caller-supplied `*_Flag` value to 1/0, otherwise take the caller's mapped
value when present, else the template default. -/
def mergeField (ck : List String) (group : String) (src : JObj)
    (k : String) (defVal : JVal) : JVal :=
  if ck.contains (group ++ "." ++ k) then defVal
  else if endsWithFlag k && (alookup src k).isSome then
    .num (if truthy ((alookup src k).getD .null) then 1 else 0)
  else
    match alookup src k with
    | some v => v
    | none => defVal

def mergeTemplate (ck : List String) (template : GObj) (mapped : GObj) : GObj :=
  keyedMap (fun group fields =>
    keyedMap (mergeField ck group ((alookup mapped group).getD [])) fields)
    template

/-- The merged payload before the rules engine runs (the state of `tpl`
at source line 585). -/
def mergedPayload (spec : Spec) (inputData : JVal) : GObj :=
  let fm := buildFieldMaps spec
  mergeTemplate fm.calculatedKeys spec.template (mapInputToBackend fm.uiMap inputData)

/-- `const cycleType = Number(DC.Cycle_Type)` (lines 586-587), with
`DC = tpl.Driving_Cycle || {}`. -/
def mergedCycleType (spec : Spec) (inputData : JVal) : Option Int :=
  jsNumberOpt (alookup ((alookup (mergedPayload spec inputData) "Driving_Cycle").getD []) "Cycle_Type")

/-- The merged `ECO_Options` value as read by the gating rule.  The source
reads it through the alias `DC` bound at line 586; no rule between the
merge and the gate writes `ECO_Options`, so the aliased read sees the
merged value. -/
def mergedEcoOptions (spec : Spec) (inputData : JVal) : Option Int :=
  jsNumberOpt (alookup ((alookup (mergedPayload spec inputData) "Driving_Cycle").getD []) "ECO_Options")

def isStandardB : Option Int → Bool
  | some n => [1, 2, 3, 4, 5].contains n
  | none => false

def isCityB (c : Option Int) : Bool := c == some 0

def isCustomB (c : Option Int) : Bool := c == some 6

/-- Standard cycles (lines 594-599): force `Time_s` and `Speed_mps` to
null and `Altitude_m` to scalar 0. -/
def standardStep (std : Bool) (tpl : GObj) : Except BuildErr GObj :=
  if std then
    match alookup tpl "Driving_Cycle" with
    | some dc =>
        .ok (aset tpl "Driving_Cycle"
          (aset (aset (aset dc "Time_s" .null) "Speed_mps" .null) "Altitude_m" (.num 0)))
    | none => .error .typeError
  else .ok tpl

/-- City (lines 601-607): remove the `Altitude_m` key entirely; leave
`Time_s`/`Speed_mps` as merged. -/
def cityStep (city : Bool) (tpl : GObj) : GObj :=
  if city then
    match alookup tpl "Driving_Cycle" with
    | some dc =>
        if (alookup dc "Altitude_m").isSome then
          aset tpl "Driving_Cycle" (adel dc "Altitude_m")
        else tpl
    | none => tpl
  else tpl

/-- `t` / `s` as resolved by the Custom branch (lines 611-612):
`mapped?.Driving_Cycle?.Time_s ?? tpl.Driving_Cycle.Time_s`. -/
def customResolved (mapped : GObj) (dc : JObj) (k : String) : Option JVal :=
  nullishGet ((alookup mapped "Driving_Cycle").bind (fun m => alookup m k))
    (alookup dc k)

def isArrO : Option JVal → Bool
  | some (.arr _) => true
  | _ => false

def arrLenMismatch : Option JVal → Option JVal → Bool
  | some (.arr a), some (.arr b) => a.length != b.length
  | _, _ => false

/-- Lines 623-630: the Custom branch's altitude — scalar 0 when the
caller's mapped value is absent, null, or an empty array, otherwise the
caller's value unchanged (scalar or array). -/
def customAltitude : Option JVal → JVal
  | none => .num 0
  | some .null => .num 0
  | some (.arr []) => .num 0
  | some v => v

/-- Custom (lines 609-631): `Time_s`/`Speed_mps` must both or neither be
arrays, and of equal length when both; `Altitude_m` is `customAltitude`
of the caller's mapped value. -/
def customStep (custom : Bool) (mapped : GObj) (tpl : GObj) : Except BuildErr GObj :=
  if custom then
    match alookup tpl "Driving_Cycle" with
    | none => .error .typeError   -- unreachable: Cycle_Type = 6 was read from this group
    | some dc =>
      let t := customResolved mapped dc "Time_s"
      let s := customResolved mapped dc "Speed_mps"
      if (isArrO t && !isArrO s) || (!isArrO t && isArrO s) then
        .error (.invalidScenario "Time_s and Speed_mps must both be arrays for Custom cycle")
      else if arrLenMismatch t s then
        .error (.invalidScenario "Time_s and Speed_mps arrays must have the same length")
      else
        .ok (aset tpl "Driving_Cycle" (aset dc "Altitude_m"
          (customAltitude ((alookup mapped "Driving_Cycle").bind
            (fun m => alookup m "Altitude_m")))))
  else .ok tpl

/-- Scenario-data visibility (lines 633-645): delete the group unless the
cycle is Standard; when Standard, rebuild it from exactly four fields with
second-level defaults.  The `VehicleLength` fallback reads the group's
template default; if the template itself had no `Scenario_data` group that
read would be a `TypeError`, and an absent template default would be
stored as JS `undefined`, which is observationally equivalent to null for
every later step of this program and is modelled as null. -/
def scenarioStep (spec : Spec) (std : Bool) (tpl : GObj) : Except BuildErr GObj :=
  if !std then .ok (adel tpl "Scenario_data")
  else
    let sd := (alookup tpl "Scenario_data").getD []
    let vlE : Except BuildErr JVal :=
      match nonNullish (alookup sd "VehicleLength") with
      | some v => .ok v
      | none =>
        match alookup spec.template "Scenario_data" with
        | none => .error .typeError
        | some tsd => .ok ((alookup tsd "VehicleLength").getD .null)
    match vlE with
    | .error e => .error e
    | .ok vl =>
      .ok (aset tpl "Scenario_data"
        [("VehicleLength", vl),
         ("Return_Trip_Distance_km",
            (nonNullish (alookup sd "Return_Trip_Distance_km")).getD (.num 0)),
         ("Number_of_Buses_in_Fleet",
            (nonNullish (alookup sd "Number_of_Buses_in_Fleet")).getD (.num 0)),
         ("Average_Velocity_of_Route_kph",
            (nonNullish (alookup sd "Average_Velocity_of_Route_kph")).getD (.num 0))])

/-- ECO-threshold gating (lines 647-662).  The source reads `ECO_Options`
through the alias `DC` (line 586); the alias observes every in-place
mutation of `tpl.Driving_Cycle`, so the model re-reads the current group
here.  When the code is not `2`, `ECO_Threshold` is forced to null — an
assignment that would be a `TypeError` were the group absent. -/
def ecoStep (mapped : GObj) (tpl : GObj) : Except BuildErr GObj :=
  let dc := (alookup tpl "Driving_Cycle").getD []
  if jsNumberOpt (alookup dc "ECO_Options") = some 2 then
    let thr := (alookup mapped "Driving_Cycle").bind (fun m => alookup m "ECO_Threshold")
    match nonNullish thr with
    | none => .error (.missingRequiredField "ECO_Threshold is required when ECO_Options = ECO_Threshold")
    | some _ => .ok tpl
  else
    match alookup tpl "Driving_Cycle" with
    | some fs => .ok (aset tpl "Driving_Cycle" (aset fs "ECO_Threshold" .null))
    | none => .error .typeError

/-- Charger flag normalization (lines 664-671): every `*_Flag` key of
`Charger_data` is coerced to 1/0. -/
def chargerStep (tpl : GObj) : GObj :=
  match alookup tpl "Charger_data" with
  | none => tpl
  | some ch =>
      aset tpl "Charger_data"
        (keyedMap (fun k v =>
          if endsWithFlag k then JVal.num (if truthy v then 1 else 0) else v) ch)

/-- Battery SoC default (lines 673-682): if the caller did not supply
`Initial_Battery_SoC_pct` and `MaximumSoC_pct` is a number, copy it. -/
def energyStep (mapped : GObj) (tpl : GObj) : GObj :=
  match alookup tpl "Energy_Storage_data" with
  | none => tpl
  | some es =>
      let provided :=
        (alookup ((alookup mapped "Energy_Storage_data").getD []) "Initial_Battery_SoC_pct").isSome
      if !provided then
        match alookup es "MaximumSoC_pct" with
        | some (.num mx) =>
            aset tpl "Energy_Storage_data" (aset es "Initial_Battery_SoC_pct" (.num mx))
        | _ => tpl
      else tpl

/-- One iteration of the final defensive scrub (lines 684-690):
`const [g, f] = key.split('.'); if (tpl[g] && hasOwnProperty(tpl[g], f)) delete tpl[g][f]`. -/
def scrubStep (t : GObj) (key : String) : GObj :=
  let p := splitPair key
  match alookup t p.1 with
  | some fs => if (alookup fs p.2).isSome then aset t p.1 (adel fs p.2) else t
  | none => t

def scrubCalculated (ck : List String) (t : GObj) : GObj :=
  ck.foldl scrubStep t

/-- `buildBackendPayload(inputData)` (lines 558-693): deep-clone the
template, merge the mapped input, then apply the rules engine in source
order — Standard / City / Custom branches, scenario-data visibility, ECO
gating, charger flag normalization, battery SoC default, final scrub.
`deepClone` (JSON stringify/parse) is the identity on the JSON-derived
template and is therefore implicit. -/
def buildBackendPayload (spec : Spec) (inputData : JVal) : Except BuildErr GObj :=
  let fm := buildFieldMaps spec
  let mapped := mapInputToBackend fm.uiMap inputData
  let tpl0 := mergedPayload spec inputData
  let cycleType := mergedCycleType spec inputData
  match standardStep (isStandardB cycleType) tpl0 with
  | .error e => .error e
  | .ok t1 =>
    match customStep (isCustomB cycleType) mapped (cityStep (isCityB cycleType) t1) with
    | .error e => .error e
    | .ok t3 =>
      match scenarioStep spec (isStandardB cycleType) t3 with
      | .error e => .error e
      | .ok t4 =>
        match ecoStep mapped t4 with
        | .error e => .error e
        | .ok t5 => .ok (scrubCalculated fm.calculatedKeys (energyStep mapped (chargerStep t5)))

/-- Field read on a finished payload. -/
def groupKey (p : GObj) (g k : String) : Option JVal :=
  (alookup p g).bind (fun fs => alookup fs k)

/-- Field read through a build result (`none` when the build failed or the
key is absent). -/
def resultGroupKey (r : Except BuildErr GObj) (g k : String) : Option JVal :=
  match r with
  | .ok p => groupKey p g k
  | .error _ => none

def isOkB {ε α : Type} : Except ε α → Bool
  | .ok _ => true
  | .error _ => false

/-- Modelled from the spec: the specification document
`json/driveCycleOption.json` consumed by `loadSpec` is not part of the
provided sources; its shape is taken from the spec's data model — a
`backend_payload_template` with the groups `Driving_Cycle`,
`Scenario_data`, `Energy_Storage_data`, `Charger_data` (field names as in
the request/response schemas), and a `ui_schema` with UI→backend renames
and calculated/show-only fields.  The `Scenario_data` defaults other than
`VehicleLength` are null, matching the spec's statement that an omitted
field falls back to the last-resort default 0. -/
def SPEC : Spec where
  template :=
    [("Driving_Cycle",
       [("Cycle_Type", .num 1),
        ("ECO_Options", .num 0),
        ("ECO_Threshold", .null),
        ("Time_s", .null),
        ("Speed_mps", .null),
        ("Altitude_m", .num 0)]),
     ("Scenario_data",
       [("VehicleLength", .num 12),
        ("Return_Trip_Distance_km", .null),
        ("Number_of_Buses_in_Fleet", .null),
        ("Average_Velocity_of_Route_kph", .null)]),
     ("Energy_Storage_data",
       [("MaximumSoC_pct", .num 90),
        ("Initial_Battery_SoC_pct", .null)]),
     ("Charger_data",
       [("Opportunity_Charging_Flag", .bool false),
        ("Charger_Power_kW", .num 150)])]
  ui_schema :=
    [("Driving_Cycle",
       [⟨"cycleType", some "Cycle_Type", some "select", none⟩,
        ⟨"ecoOptions", some "ECO_Options", some "select", none⟩,
        ⟨"ecoThreshold", some "ECO_Threshold", some "number", none⟩,
        ⟨"timeSeries", some "Time_s", some "array", none⟩,
        ⟨"speedSeries", some "Speed_mps", some "array", none⟩,
        ⟨"altitudeSeries", some "Altitude_m", some "array", none⟩,
        ⟨"totalEnergy", some "Total_Energy_kWh", some "calculated", none⟩]),
     ("Scenario_data",
       [⟨"vehicleLength", some "VehicleLength", some "number", none⟩,
        ⟨"returnTripDistance", some "Return_Trip_Distance_km", some "number", none⟩,
        ⟨"fleetSize", some "Number_of_Buses_in_Fleet", some "number", none⟩,
        ⟨"averageVelocity", some "Average_Velocity_of_Route_kph", some "number", none⟩]),
     ("Energy_Storage_data",
       [⟨"maximumSoC", some "MaximumSoC_pct", some "number", none⟩,
        ⟨"initialSoC", some "Initial_Battery_SoC_pct", some "number", none⟩]),
     ("Charger_data",
       [⟨"opportunityCharging", some "Opportunity_Charging_Flag", some "checkbox", none⟩,
        ⟨"chargerPower", some "Charger_Power_kW", some "number", none⟩,
        ⟨"chargerState", some "Charger_State", some "text", some (.bool true)⟩])]

/-! ## ResponseValidator (`ValidatorResponseSchema`, src/validation.js lines 61-85)

A zod object: `version` and `computed_at` strings, `timeseries` an object
whose `time_s` is a required numeric array and whose other series are
optional numeric arrays, `metrics` an object of optional numbers. -/

def isNumArr : JVal → Bool
  | .arr xs => xs.all (fun v => match v with | .num _ => true | _ => false)
  | _ => false

def optNumArr : Option JVal → Bool
  | none => true
  | some v => isNumArr v

def optNum : Option JVal → Bool
  | none => true
  | some (.num _) => true
  | some _ => false

def validatorResponseOk (v : JVal) : Bool :=
  match v with
  | .obj fs =>
    (match alookup fs "version" with | some (.str _) => true | _ => false) &&
    (match alookup fs "computed_at" with | some (.str _) => true | _ => false) &&
    (match alookup fs "timeseries" with
     | some (.obj ts) =>
        isNumArr ((alookup ts "time_s").getD .null) &&
        optNumArr (alookup ts "speed_ms") && optNumArr (alookup ts "rpm") &&
        optNumArr (alookup ts "fuel_lph") && optNumArr (alookup ts "load_pct") &&
        optNumArr (alookup ts "torque_pct")
     | _ => false) &&
    (match alookup fs "metrics" with
     | some (.obj ms) =>
        optNum (alookup ms "fuel_rate_lph") && optNum (alookup ms "fuel_pct") &&
        optNum (alookup ms "load_pct") && optNum (alookup ms "torque_pct") &&
        optNum (alookup ms "dtc_count") && optNum (alookup ms "coolant_c") &&
        optNum (alookup ms "intake_c") && optNum (alookup ms "ambient_c") &&
        optNum (alookup ms "distance_km") && optNum (alookup ms "speed_now") &&
        optNum (alookup ms "rpm_now")
     | _ => false)
  | _ => false

/-! ## SubmissionCoordinator (`POST /api/send-to-validator`, lines 870-982)

The persisted simulation record (`simulationSchema`, lines 743-763) and the
handler, modelled as a function from the database, the request body and the
external validator's outcome to the list of persistence/network effects, in
program order, together with the HTTP response. -/

structure SimRecord where
  rid : String
  inputData : JVal
  requestJSON : JVal
  preparedPayload : JVal        -- schema default null
  validatedResponse : JVal
  status : String
  error : Option String

/-- The outcome of `axios.post` to the external validator, after the
configured retries: either a rejection (transport failure or non-2xx
response, carrying `response?.status` / `response?.data` when present) or
a resolved 2xx response body. -/
inductive ValidatorOutcome where
  | netFail (msg : String) (respStatus : Option Nat) (respData : Option JVal)
  | ok (body : JVal)

inductive Effect where
  | save (r : SimRecord)
  | httpPost (url : String) (headers : List (String × String)) (payload : JVal)
  | writeFile (path : String) (content : JVal)

structure ApiResponse where
  status : Nat
  body : JObj

structure ServerConfig where
  VALIDATOR_URL : String
  SHARED_SECRET : Option String

/-- Payload resolution (lines 887-890):
`doc.preparedPayload || doc.requestJSON?.payload || doc.requestJSON`. -/
def payloadToSend (doc : SimRecord) : JVal :=
  if truthy doc.preparedPayload then doc.preparedPayload
  else
    match jsGetProp doc.requestJSON "payload" with
    | some p => if truthy p then p else doc.requestJSON
    | none => doc.requestJSON

/-- Outbound headers (lines 893-905); `sign` stands for
`createHmacSignature` (an HMAC-SHA256 hex digest, external crypto), only
attached when a shared secret is configured and the digest is truthy. -/
def submitHeaders (cfg : ServerConfig) (sign : JVal → String → String)
    (doc : SimRecord) : List (String × String) :=
  let base := [("Content-Type", "application/json"),
               ("User-Agent", "eBRT-Backend/1.0.0"),
               ("Idempotency-Key", doc.rid)]
  match cfg.SHARED_SECRET with
  | none => base
  | some secret =>
      if secret = "" then base
      else
        let sig := sign (payloadToSend doc) secret
        if sig = "" then base else base ++ [("X-Signature", sig)]

/-- The `POST /api/send-to-validator` handler (lines 870-982).

Returns the effects issued (saves, the outbound call, output-file write),
in program order, and the HTTP response.  Control flow notes, re-traced
from the source:

* a falsy or missing `id` is rejected 400 before any lookup;
* a non-string truthy `id` makes `findById` throw a `CastError`, reaching
  the outer catch (500, no effects);
* an unknown id is 404;
* otherwise the record is saved with status `processing` *before* the
  outbound call;
* on a rejected outbound call the record is saved `failed` with the error
  message and the upstream status (default 502) is relayed;
* on a resolved 2xx response the body is validated with
  `ValidatorResponseSchema.safeParse`.  A parse failure saves the record
  `failed` with error `Invalid validator response format` and returns 422.
  On parse *success*, line 950 assigns to the `const validated` binding
  declared at line 929; in JavaScript that assignment throws a `TypeError`
  at runtime, which the enclosing try/catch (lines 951-962) catches, so
  the record is saved `failed` with error
  `Validator response validation error` and 422 is returned — the success
  path at lines 964-977 (status `completed`, output file, 200 summary) is
  unreachable. -/
def sendToValidator (cfg : ServerConfig) (sign : JVal → String → String)
    (db : List SimRecord) (reqBody : JVal) (outcome : ValidatorOutcome) :
    List Effect × ApiResponse :=
  match jsGetProp reqBody "id" with
  | none =>
      ([], ⟨400, [("error", .str "Missing required field"), ("message", .str "id is required")]⟩)
  | some idv =>
    if ¬ truthy idv then
      ([], ⟨400, [("error", .str "Missing required field"), ("message", .str "id is required")]⟩)
    else
      match idv with
      | .str id =>
        match db.find? (fun r => r.rid == id) with
        | none =>
            ([], ⟨404, [("error", .str "Record not found"),
                        ("message", .str ("Simulation with id " ++ id ++ " not found"))]⟩)
        | some doc =>
          let doc1 := { doc with status := "processing" }
          let body := payloadToSend doc1
          let hdrs := submitHeaders cfg sign doc1
          let pre := [Effect.save doc1, Effect.httpPost cfg.VALIDATOR_URL hdrs body]
          match outcome with
          | .netFail msg errStatus errData =>
              let doc2 := { doc1 with status := "failed", error := some msg }
              (pre ++ [Effect.save doc2],
               ⟨errStatus.getD 502,
                [("error", .str "Validator error"), ("message", .str msg),
                 ("detail", errData.getD (.obj [("error", .str "Validator unreachable")]))]⟩)
          | .ok data =>
              if validatorResponseOk data then
                -- `validated = parsedResponse.data` (line 950) throws: `validated`
                -- is a `const` (line 929); caught at lines 951-962.
                let doc2 := { doc1 with status := "failed", error := some "Validator response validation error" }
                (pre ++ [Effect.save doc2],
                 ⟨422, [("error", .str "Validator response validation error"),
                        ("message", .str "Failed to validate validator response")]⟩)
              else
                let doc2 := { doc1 with status := "failed", error := some "Invalid validator response format" }
                (pre ++ [Effect.save doc2],
                 ⟨422, [("error", .str "Invalid validator response"),
                        ("message", .str "Validator returned invalid response format")]⟩)
      | _ =>
          ([], ⟨500, [("error", .str "Internal Server Error"),
                      ("message", .str "Failed to send data to validator")]⟩)

/-- The first outbound request body among a list of effects. -/
def postBodyOf : List Effect → Option JVal
  | [] => none
  | .httpPost _ _ b :: _ => some b
  | _ :: rest => postBodyOf rest

/-- Number of outbound calls among a list of effects. -/
def countPosts (es : List Effect) : Nat :=
  es.countP (fun e => match e with | .httpPost _ _ _ => true | _ => false)

/-- The record state of the last persistence effect. -/
def lastSave (es : List Effect) : Option SimRecord :=
  es.foldl (fun acc e => match e with | .save r => some r | _ => acc) none

/-! ## Lemmas about the rules-engine steps -/

theorem alookup_mergeTemplate (ck : List String) (template mapped : GObj) (g : String) :
    alookup (mergeTemplate ck template mapped) g =
      (alookup template g).map
        (fun fields => keyedMap (mergeField ck g ((alookup mapped g).getD [])) fields) := by
  unfold mergeTemplate
  exact alookup_keyedMap _ template g

theorem alookup_mergeFields (ck : List String) (g : String) (src : JObj)
    (fields : JObj) (k : String) :
    alookup (keyedMap (mergeField ck g src) fields) k =
      (alookup fields k).map (mergeField ck g src k) :=
  alookup_keyedMap _ fields k

/-- The scrub never resurrects a key: an absent group/key pair stays absent. -/
theorem scrubStep_gkey_none {t : GObj} {g f : String} (key : String)
    (h : groupKey t g f = none) : groupKey (scrubStep t key) g f = none := by
  unfold scrubStep
  set p := splitPair key with hp
  cases ht : alookup t p.1 with
  | none => simpa [ht] using h
  | some fs =>
    simp only [ht]
    by_cases hs : (alookup fs p.2).isSome
    · simp only [hs, if_true]
      unfold groupKey at h ⊢
      by_cases hg : p.1 = g
      · subst hg
        rw [alookup_aset_self]
        by_cases hf : p.2 = f
        · subst hf; simp [alookup_adel_self]
        · rw [ht] at h
          simp only [Option.bind] at h ⊢
          rw [alookup_adel_other _ hf]
          exact h
      · rw [alookup_aset_other _ hg]
        exact h
    · simpa [hs] using h

/-- After the scrub processes a key, the pair it names is absent. -/
theorem scrubStep_gkey_self (t : GObj) (key : String) :
    groupKey (scrubStep t key) (splitPair key).1 (splitPair key).2 = none := by
  unfold scrubStep groupKey
  set p := splitPair key with hp
  cases ht : alookup t p.1 with
  | none => simp [ht]
  | some fs =>
    simp only [ht]
    by_cases hs : (alookup fs p.2).isSome
    · simp [hs, alookup_aset_self, alookup_adel_self]
    · rw [if_neg hs, ht]
      simp only [Option.some_bind]
      exact Option.not_isSome_iff_eq_none.mp hs

/-- The scrub leaves every pair it does not name unchanged. -/
theorem scrubStep_gkey_other {g f : String} (t : GObj) (key : String)
    (h : splitPair key ≠ (g, f)) :
    groupKey (scrubStep t key) g f = groupKey t g f := by
  unfold scrubStep groupKey
  set p := splitPair key with hp
  cases ht : alookup t p.1 with
  | none => simp [ht]
  | some fs =>
    simp only [ht]
    by_cases hs : (alookup fs p.2).isSome
    · simp only [hs, if_true]
      by_cases hg : p.1 = g
      · have hf : p.2 ≠ f := by
          intro hf
          exact h (by rw [hp] at hg hf ⊢; exact Prod.ext hg hf)
        subst hg
        rw [alookup_aset_self, ht]
        simp only [Option.bind]
        rw [alookup_adel_other _ hf]
      · rw [alookup_aset_other _ hg]
    · simp [hs]

/-- The scrub never adds a group. -/
theorem scrubStep_group_none {t : GObj} {g : String} (key : String)
    (h : alookup t g = none) : alookup (scrubStep t key) g = none := by
  unfold scrubStep
  set p := splitPair key with hp
  cases ht : alookup t p.1 with
  | none => simpa [ht] using h
  | some fs =>
    simp only [ht]
    by_cases hs : (alookup fs p.2).isSome
    · have hg : p.1 ≠ g := by
        intro hg; rw [hg, h] at ht; exact Option.noConfusion ht
      simp only [hs, if_true]
      rw [alookup_aset_other _ hg]
      exact h
    · simpa [hs] using h

theorem scrub_gkey_none {g f : String} (ck : List String) (t : GObj)
    (h : groupKey t g f = none) : groupKey (scrubCalculated ck t) g f = none := by
  induction ck generalizing t with
  | nil => simpa [scrubCalculated] using h
  | cons key rest ih =>
    show groupKey (scrubCalculated rest (scrubStep t key)) g f = none
    exact ih _ (scrubStep_gkey_none key h)

theorem scrub_group_none {g : String} (ck : List String) (t : GObj)
    (h : alookup t g = none) : alookup (scrubCalculated ck t) g = none := by
  induction ck generalizing t with
  | nil => simpa [scrubCalculated] using h
  | cons key rest ih =>
    show alookup (scrubCalculated rest (scrubStep t key)) g = none
    exact ih _ (scrubStep_group_none key h)

/-- Every fully qualified key in the calculated set is absent after the
final scrub. -/
theorem scrub_removes (ck : List String) (t : GObj) {key : String}
    (hmem : key ∈ ck) :
    groupKey (scrubCalculated ck t) (splitPair key).1 (splitPair key).2 = none := by
  induction ck generalizing t with
  | nil => cases hmem
  | cons k0 rest ih =>
    show groupKey (scrubCalculated rest (scrubStep t k0)) _ _ = none
    rcases List.mem_cons.mp hmem with h0 | hrest
    · subst h0
      exact scrub_gkey_none rest _ (scrubStep_gkey_self t key)
    · exact ih _ hrest

/-- A pair named by no calculated key passes through the scrub unchanged. -/
theorem scrub_gkey_other {g f : String} (ck : List String) (t : GObj)
    (h : ∀ key ∈ ck, splitPair key ≠ (g, f)) :
    groupKey (scrubCalculated ck t) g f = groupKey t g f := by
  induction ck generalizing t with
  | nil => simp [scrubCalculated]
  | cons k0 rest ih =>
    show groupKey (scrubCalculated rest (scrubStep t k0)) g f = _
    rw [ih _ (fun key hk => h key (List.mem_cons_of_mem _ hk))]
    exact scrubStep_gkey_other t k0 (h k0 (List.mem_cons_self _ _))

/-- `chargerStep` only touches the `Charger_data` group. -/
theorem chargerStep_alookup_other {t : GObj} {g : String} (h : g ≠ "Charger_data") :
    alookup (chargerStep t) g = alookup t g := by
  unfold chargerStep
  cases hc : alookup t "Charger_data" with
  | none => rfl
  | some ch => exact alookup_aset_other _ (fun he => h he.symm) _

/-- `energyStep` only touches the `Energy_Storage_data` group. -/
theorem energyStep_alookup_other {mapped : GObj} {t : GObj} {g : String}
    (h : g ≠ "Energy_Storage_data") :
    alookup (energyStep mapped t) g = alookup t g := by
  unfold energyStep
  cases hc : alookup t "Energy_Storage_data" with
  | none => rfl
  | some es =>
    simp only
    by_cases hp : (alookup ((alookup mapped "Energy_Storage_data").getD []) "Initial_Battery_SoC_pct").isSome
    · simp [hp]
    · simp only [hp, Bool.not_false, if_true]
      cases hm : alookup es "MaximumSoC_pct" with
      | none => rfl
      | some v =>
        cases v with
        | num mx => exact alookup_aset_other _ (fun he => h he.symm) _
        | null => rfl
        | bool b => rfl
        | str s => rfl
        | arr xs => rfl
        | obj fs => rfl

/-! ## Concrete fixtures shared by the claim theorems and witnesses -/

def demoConfig : ServerConfig := ⟨"http://localhost:5001/validate", none⟩

def demoSign : JVal → String → String := fun _ _ => "deadbeef"

/-- A response body conforming to `ValidatorResponseSchema`. -/
def validatorGoodBody : JVal :=
  .obj [("version", .str "1.2.0"),
        ("computed_at", .str "2024-01-01T00:00:00Z"),
        ("timeseries", .obj [("time_s", .arr [.num 0, .num 1])]),
        ("metrics", .obj [("distance_km", .num 3)])]

def cityInput : JVal := .obj [("Driving_Cycle", .obj [("Cycle_Type", .num 0)])]

/-- A record as created by `POST /api/save-input` (lines 840-846): both
`preparedPayload` and `requestJSON.payload` populated. -/
def pendingRecord : SimRecord where
  rid := "a1"
  inputData := cityInput
  requestJSON := .obj [("userId", .null), ("inputData", cityInput),
                       ("payload", .obj [("Driving_Cycle", .obj [("Cycle_Type", .num 0)])]),
                       ("timestamp", .str "2024-01-01T00:00:00Z"), ("version", .str "1.0.0")]
  preparedPayload := .obj [("Driving_Cycle", .obj [("Cycle_Type", .num 0)])]
  validatedResponse := .null
  status := "pending"
  error := none

def processingRecord : SimRecord := { pendingRecord with rid := "p1", status := "processing" }

/-- A record in the shape created by the repository's earlier server
version (part_000 lines 177-189): `requestJSON` has no `payload` field and
`preparedPayload` is null. -/
def legacyRecord : SimRecord where
  rid := "old1"
  inputData := .obj [("Driving_Cycle", .obj [("Cycle_Type", .num 0)])]
  requestJSON := .obj [("userId", .null),
                       ("inputData", .obj [("Driving_Cycle", .obj [("Cycle_Type", .num 0)])]),
                       ("timestamp", .str "2024-01-01T00:00:00Z"), ("version", .str "1.0.0")]
  preparedPayload := .null
  validatedResponse := .null
  status := "pending"
  error := none

/-! ## Claim C9 -/

/-- C9: `buildBackendPayload` is a pure, deterministic function of its
input and the fixed specification: two calls on identical input yield
structurally equal results.  In this embedding the source's only mutation
targets — the fresh `deepClone` of the template and the locally built
`mapped` object — are local values, so the function is total and pure by
construction and the two calls are definitionally equal. -/
theorem c9_build_deterministic (spec : Spec) (inputData : JVal) :
    buildBackendPayload spec inputData = buildBackendPayload spec inputData := rfl

/-! ## Claim C1 -/

/-- C1 (claim refuted by the code): submitting an existing record against
a validator that returns a 2xx body conforming to the response schema does
*not* complete the record: line 950 assigns to the `const validated`
binding of line 929, the resulting `TypeError` is caught by the inner
catch, and the handler persists status `failed` with error
`Validator response validation error` and answers 422 — not the claimed
`completed` / `error: null` / success summary. -/
theorem c1_valid_response_marks_record_failed :
    validatorResponseOk validatorGoodBody = true ∧
    (sendToValidator demoConfig demoSign [pendingRecord]
        (.obj [("id", .str "a1")]) (.ok validatorGoodBody)).2.status = 422 ∧
    (lastSave (sendToValidator demoConfig demoSign [pendingRecord]
        (.obj [("id", .str "a1")]) (.ok validatorGoodBody)).1).map SimRecord.status =
      some "failed" ∧
    (lastSave (sendToValidator demoConfig demoSign [pendingRecord]
        (.obj [("id", .str "a1")]) (.ok validatorGoodBody)).1).bind SimRecord.error =
      some "Validator response validation error" :=
  ⟨rfl, rfl, rfl, rfl⟩

/-! ## Claim C3 -/

/-- C3 (claim refuted by the code): invoking submit on a record whose
status is already `processing` is neither rejected nor a no-op — the
handler unconditionally re-persists `processing` and issues the outbound
HTTP call (here counted once for the single invocation; nothing guards a
concurrent duplicate). -/
theorem c3_processing_record_resubmission_posts_again :
    processingRecord.status = "processing" ∧
    countPosts (sendToValidator demoConfig demoSign [processingRecord]
        (.obj [("id", .str "p1")]) (.netFail "timeout" none none)).1 = 1 ∧
    (sendToValidator demoConfig demoSign [processingRecord]
        (.obj [("id", .str "p1")]) (.netFail "timeout" none none)).2.status = 502 :=
  ⟨rfl, rfl, rfl⟩

/-! ## Claim C10 -/

/-- C10: for every record the handler finds, the persisted transition to
`processing` is the first effect and strictly precedes the outbound HTTP
call, whatever the eventual outcome of that call. -/
theorem c10_processing_persisted_before_call
    (cfg : ServerConfig) (sign : JVal → String → String) (db : List SimRecord)
    (reqBody : JVal) (outcome : ValidatorOutcome) (id : String) (doc : SimRecord)
    (hid : jsGetProp reqBody "id" = some (.str id))
    (hne : id ≠ "")
    (hfind : db.find? (fun r => r.rid == id) = some doc) :
    (sendToValidator cfg sign db reqBody outcome).1.take 2 =
      [Effect.save { doc with status := "processing" },
       Effect.httpPost cfg.VALIDATOR_URL
         (submitHeaders cfg sign { doc with status := "processing" })
         (payloadToSend { doc with status := "processing" })] := by
  have htr : truthy (.str id) = true := by
    simp [truthy]
    exact hne
  unfold sendToValidator
  rw [hid]
  simp only [htr, not_true, if_false, hfind]
  cases outcome with
  | netFail msg st data => simp [List.take]
  | ok data =>
    by_cases hv : validatorResponseOk data
    · simp [hv, List.take]
    · simp [hv, List.take]

/-- Witness for C10 at a concrete database and record. -/
theorem c10_processing_persisted_before_call_witness :
    (sendToValidator demoConfig demoSign [pendingRecord]
        (.obj [("id", .str "a1")]) (.ok validatorGoodBody)).1.take 2 =
      [Effect.save { pendingRecord with status := "processing" },
       Effect.httpPost demoConfig.VALIDATOR_URL
         (submitHeaders demoConfig demoSign { pendingRecord with status := "processing" })
         (payloadToSend { pendingRecord with status := "processing" })] :=
  c10_processing_persisted_before_call demoConfig demoSign [pendingRecord]
    (.obj [("id", .str "a1")]) (.ok validatorGoodBody) "a1" pendingRecord
    rfl (by decide) rfl

/-! ## Claim C4 -/

/-- C4 (counterexample): the wire body is *not* always `preparedPayload`
and `inputData` *can* be transmitted.  For a record in the earlier server
version's shape (null `preparedPayload`, no `requestJSON.payload`), the
handler's fallback chain sends the whole `requestJSON`, whose `inputData`
field is the record's raw input. -/
theorem c4_counterexample_inputdata_transmitted :
    legacyRecord.preparedPayload = .null ∧
    postBodyOf (sendToValidator demoConfig demoSign [legacyRecord]
        (.obj [("id", .str "old1")]) (.ok validatorGoodBody)).1 =
      some legacyRecord.requestJSON ∧
    (postBodyOf (sendToValidator demoConfig demoSign [legacyRecord]
        (.obj [("id", .str "old1")]) (.ok validatorGoodBody)).1).bind
        (fun b => jsGetProp b "inputData") = some legacyRecord.inputData :=
  ⟨rfl, rfl, rfl⟩

/-- C4 (amended): whenever the found record's `preparedPayload` is set
(truthy — in particular any record created by `save-input`), the outbound
request body is exactly `preparedPayload`; the raw `inputData` is only
reachable through the legacy fallback of the counterexample. -/
theorem c4_prepared_payload_is_wire_body
    (cfg : ServerConfig) (sign : JVal → String → String) (db : List SimRecord)
    (reqBody : JVal) (outcome : ValidatorOutcome) (id : String) (doc : SimRecord)
    (hid : jsGetProp reqBody "id" = some (.str id))
    (hne : id ≠ "")
    (hfind : db.find? (fun r => r.rid == id) = some doc)
    (hprep : truthy doc.preparedPayload = true) :
    postBodyOf (sendToValidator cfg sign db reqBody outcome).1 =
      some doc.preparedPayload := by
  have htr : truthy (.str id) = true := by
    simp [truthy]
    exact hne
  have hbody : payloadToSend { doc with status := "processing" } = doc.preparedPayload := by
    unfold payloadToSend
    simp [hprep]
  unfold sendToValidator
  rw [hid]
  simp only [htr, not_true, if_false, hfind]
  cases outcome with
  | netFail msg st data => simp [postBodyOf, hbody]
  | ok data =>
    by_cases hv : validatorResponseOk data
    · simp [hv, postBodyOf, hbody]
    · simp [hv, postBodyOf, hbody]

/-- Witness for the amended C4. -/
theorem c4_prepared_payload_is_wire_body_witness :
    postBodyOf (sendToValidator demoConfig demoSign [pendingRecord]
        (.obj [("id", .str "a1")]) (.netFail "timeout" none none)).1 =
      some pendingRecord.preparedPayload :=
  c4_prepared_payload_is_wire_body demoConfig demoSign [pendingRecord]
    (.obj [("id", .str "a1")]) (.netFail "timeout" none none) "a1" pendingRecord
    rfl (by decide) rfl rfl

/-! ## Claim C2 -/

/-- C2: for every input on which the build succeeds, no fully qualified
`group.backendKey` recorded in the calculated-key set survives as a key of
its group in the returned payload — the final defensive scrub removes it.
The hypothesis `hsplit` states that `split('.')` recovers the two name
components, which holds for every dot-free group and field name (all names
of the specification document are identifiers). -/
theorem c2_no_calculated_key_in_output
    (spec : Spec) (inputData : JVal) (g bk : String) (payload : GObj)
    (hck : (g ++ "." ++ bk) ∈ (buildFieldMaps spec).calculatedKeys)
    (hsplit : splitPair (g ++ "." ++ bk) = (g, bk))
    (hok : buildBackendPayload spec inputData = .ok payload) :
    groupKey payload g bk = none := by
  simp only [buildBackendPayload] at hok
  split at hok
  · exact absurd hok (by simp)
  · split at hok
    · exact absurd hok (by simp)
    · split at hok
      · exact absurd hok (by simp)
      · split at hok
        · exact absurd hok (by simp)
        · rename_i t5 heco
          simp only [Except.ok.injEq] at hok
          subst hok
          have h := scrub_removes (buildFieldMaps spec).calculatedKeys
            (energyStep (mapInputToBackend (buildFieldMaps spec).uiMap inputData)
              (chargerStep t5)) hck
          rw [hsplit] at h
          exact h

def calcProbeInput : JVal :=
  .obj [("Driving_Cycle", .obj [("Cycle_Type", .num 0), ("Total_Energy_kWh", .num 99)]),
        ("Charger_data", .obj [("Charger_State", .str "on")])]

/-- Witness for C2: an input that tries to smuggle both calculated fields
of the modelled specification into the payload. -/
theorem c2_no_calculated_key_in_output_witness :
    isOkB (buildBackendPayload SPEC calcProbeInput) = true ∧
    resultGroupKey (buildBackendPayload SPEC calcProbeInput)
      "Driving_Cycle" "Total_Energy_kWh" = none := by
  refine ⟨rfl, ?_⟩
  cases hok : buildBackendPayload SPEC calcProbeInput with
  | error e => simp [resultGroupKey]
  | ok p =>
    simpa [resultGroupKey] using
      c2_no_calculated_key_in_output SPEC calcProbeInput
        "Driving_Cycle" "Total_Energy_kWh" p (by decide) (by decide) hok

/-! ## More step lemmas (city / eco / merge) -/

theorem groupKey_congr {t' t : GObj} {g : String}
    (h : alookup t' g = alookup t g) (f : String) :
    groupKey t' g f = groupKey t g f := by
  unfold groupKey; rw [h]

theorem groupKey_adel_group_other {t : GObj} {g dg : String}
    (h : dg ≠ g) (f : String) :
    groupKey (adel t dg) g f = groupKey t g f :=
  groupKey_congr (alookup_adel_other t h) f

/-- The City branch removes `Altitude_m` (or it was already absent). -/
theorem cityStep_alt_none (tpl : GObj) :
    groupKey (cityStep true tpl) "Driving_Cycle" "Altitude_m" = none := by
  unfold cityStep groupKey
  cases hdc : alookup tpl "Driving_Cycle" with
  | none => simp [hdc]
  | some dc =>
    simp only [if_true, hdc]
    by_cases ha : (alookup dc "Altitude_m").isSome
    · simp [ha, alookup_aset_self, alookup_adel_self]
    · rw [if_neg ha, hdc]
      simp only [Option.some_bind]
      exact Option.not_isSome_iff_eq_none.mp ha

theorem cityStep_gkey_other_key {tpl : GObj} (c : Bool) {f : String}
    (hf : f ≠ "Altitude_m") :
    groupKey (cityStep c tpl) "Driving_Cycle" f = groupKey tpl "Driving_Cycle" f := by
  unfold cityStep
  cases c with
  | false => rfl
  | true =>
    cases hdc : alookup tpl "Driving_Cycle" with
    | none => rfl
    | some dc =>
      simp only [if_true]
      by_cases ha : (alookup dc "Altitude_m").isSome
      · simp only [ha, if_true]
        unfold groupKey
        rw [alookup_aset_self, hdc]
        simp only [Option.some_bind]
        rw [alookup_adel_other _ (fun he => hf he.symm)]
      · simp [ha]

theorem cityStep_alookup_group_other {tpl : GObj} (c : Bool) {g : String}
    (hg : g ≠ "Driving_Cycle") :
    alookup (cityStep c tpl) g = alookup tpl g := by
  unfold cityStep
  cases c with
  | false => rfl
  | true =>
    cases hdc : alookup tpl "Driving_Cycle" with
    | none => rfl
    | some dc =>
      simp only [if_true]
      by_cases ha : (alookup dc "Altitude_m").isSome
      · simp only [ha, if_true]
        exact alookup_aset_other _ (fun he => hg he.symm) _
      · simp [ha]

/-- Shape of a successful ECO-gating step: either a pass-through (code 2
with a supplied threshold) or the defensive null write. -/
theorem ecoStep_ok_cases {mapped tpl t' : GObj} (h : ecoStep mapped tpl = .ok t') :
    t' = tpl ∨ ∃ fs, alookup tpl "Driving_Cycle" = some fs ∧
      t' = aset tpl "Driving_Cycle" (aset fs "ECO_Threshold" .null) := by
  simp only [ecoStep] at h
  by_cases hc : jsNumberOpt (alookup ((alookup tpl "Driving_Cycle").getD []) "ECO_Options") = some 2
  · rw [if_pos hc] at h
    split at h
    · exact absurd h (by simp)
    · simp only [Except.ok.injEq] at h
      exact Or.inl h.symm
  · rw [if_neg hc] at h
    split at h
    · rename_i fs hdc
      simp only [Except.ok.injEq] at h
      exact Or.inr ⟨fs, hdc, h.symm⟩
    · exact absurd h (by simp)

theorem ecoStep_gkey_other {mapped tpl t' : GObj} {g f : String}
    (h : ecoStep mapped tpl = .ok t')
    (hne : g ≠ "Driving_Cycle" ∨ f ≠ "ECO_Threshold") :
    groupKey t' g f = groupKey tpl g f := by
  rcases ecoStep_ok_cases h with rfl | ⟨fs, hdc, rfl⟩
  · rfl
  · unfold groupKey
    by_cases hg : g = "Driving_Cycle"
    · subst hg
      rw [alookup_aset_self, hdc]
      have hf : f ≠ "ECO_Threshold" := hne.resolve_left (by simp)
      simp only [Option.some_bind]
      rw [alookup_aset_other _ (fun he => hf he.symm)]
    · rw [alookup_aset_other _ (fun he => hg he.symm)]

theorem ecoStep_alookup_group_other {mapped tpl t' : GObj} {g : String}
    (h : ecoStep mapped tpl = .ok t') (hg : g ≠ "Driving_Cycle") :
    alookup t' g = alookup tpl g := by
  rcases ecoStep_ok_cases h with rfl | ⟨fs, hdc, rfl⟩
  · rfl
  · exact alookup_aset_other _ (fun he => hg he.symm) _

/-- A caller-supplied (mapped) value for a non-calculated, non-flag
template key survives the base merge unchanged. -/
theorem merged_value_of_supplied (spec : Spec) (inputData : JVal)
    (g k : String) (v : JVal) (tg : JObj)
    (htpl : alookup spec.template g = some tg)
    (htk : (alookup tg k).isSome)
    (hnc : (buildFieldMaps spec).calculatedKeys.contains (g ++ "." ++ k) = false)
    (hnf : endsWithFlag k = false)
    (hv : alookup ((alookup (mapInputToBackend (buildFieldMaps spec).uiMap inputData) g).getD []) k
            = some v) :
    groupKey (mergedPayload spec inputData) g k = some v := by
  obtain ⟨d, hd⟩ := Option.isSome_iff_exists.mp htk
  unfold mergedPayload groupKey
  rw [alookup_mergeTemplate, htpl]
  simp only [Option.map_some', Option.some_bind]
  rw [alookup_mergeFields, hd]
  simp only [Option.map_some']
  unfold mergeField
  rw [hnc, hnf, hv]
  rfl

/-! ## Claim C8 -/

/-- C8: with merged `Cycle_Type = 0` (City), a successful build returns a
payload with no `Altitude_m` key in `Driving_Cycle` at all, the
`Scenario_data` group deleted entirely, and `Time_s`/`Speed_mps` exactly
as merged from the caller's input (untouched by the rules; the two
calculated-key hypotheses state that the fixed specification does not mark
them calculated, which would make the final scrub delete them). -/
theorem c8_city_cycle_shape
    (spec : Spec) (inputData : JVal) (payload : GObj)
    (hcy : mergedCycleType spec inputData = some 0)
    (hok : buildBackendPayload spec inputData = .ok payload)
    (hkfT : ∀ c ∈ (buildFieldMaps spec).calculatedKeys,
      splitPair c ≠ ("Driving_Cycle", "Time_s"))
    (hkfS : ∀ c ∈ (buildFieldMaps spec).calculatedKeys,
      splitPair c ≠ ("Driving_Cycle", "Speed_mps")) :
    groupKey payload "Driving_Cycle" "Altitude_m" = none ∧
    alookup payload "Scenario_data" = none ∧
    groupKey payload "Driving_Cycle" "Time_s" =
      groupKey (mergedPayload spec inputData) "Driving_Cycle" "Time_s" ∧
    groupKey payload "Driving_Cycle" "Speed_mps" =
      groupKey (mergedPayload spec inputData) "Driving_Cycle" "Speed_mps" := by
  have heq : buildBackendPayload spec inputData =
      match ecoStep (mapInputToBackend (buildFieldMaps spec).uiMap inputData)
        (adel (cityStep true (mergedPayload spec inputData)) "Scenario_data") with
      | .error e => .error e
      | .ok t5 => .ok (scrubCalculated (buildFieldMaps spec).calculatedKeys
          (energyStep (mapInputToBackend (buildFieldMaps spec).uiMap inputData)
            (chargerStep t5))) := by
    simp only [buildBackendPayload, hcy]
    rfl
  rw [heq] at hok
  split at hok
  · exact absurd hok (by simp)
  · rename_i t5 heco
    simp only [Except.ok.injEq] at hok
    subst hok
    refine ⟨?_, ?_, ?_, ?_⟩
    · apply scrub_gkey_none
      rw [groupKey_congr (energyStep_alookup_other (by decide)),
          groupKey_congr (chargerStep_alookup_other (by decide)),
          ecoStep_gkey_other heco (Or.inr (by decide)),
          groupKey_adel_group_other (by decide)]
      exact cityStep_alt_none _
    · apply scrub_group_none
      rw [energyStep_alookup_other (by decide),
          chargerStep_alookup_other (by decide),
          ecoStep_alookup_group_other heco (by decide)]
      exact alookup_adel_self _ _
    · rw [scrub_gkey_other _ _ hkfT,
          groupKey_congr (energyStep_alookup_other (by decide)),
          groupKey_congr (chargerStep_alookup_other (by decide)),
          ecoStep_gkey_other heco (Or.inr (by decide)),
          groupKey_adel_group_other (by decide),
          cityStep_gkey_other_key true (by decide)]
    · rw [scrub_gkey_other _ _ hkfS,
          groupKey_congr (energyStep_alookup_other (by decide)),
          groupKey_congr (chargerStep_alookup_other (by decide)),
          ecoStep_gkey_other heco (Or.inr (by decide)),
          groupKey_adel_group_other (by decide),
          cityStep_gkey_other_key true (by decide)]

def cityProbeInput : JVal :=
  .obj [("Driving_Cycle", .obj
    [("Cycle_Type", .num 0),
     ("Time_s", .arr [.num 0, .num 1]),
     ("Speed_mps", .arr [.num 5, .num 6]),
     ("Altitude_m", .num 30)])]

/-- Witness for C8: a City input with caller-supplied time/speed series
and an altitude that the branch must drop. -/
theorem c8_city_cycle_shape_witness :
    mergedCycleType SPEC cityProbeInput = some 0 ∧
    isOkB (buildBackendPayload SPEC cityProbeInput) = true ∧
    resultGroupKey (buildBackendPayload SPEC cityProbeInput)
      "Driving_Cycle" "Altitude_m" = none ∧
    resultGroupKey (buildBackendPayload SPEC cityProbeInput)
      "Driving_Cycle" "Time_s" = some (.arr [.num 0, .num 1]) := by
  refine ⟨rfl, rfl, ?_, ?_⟩
  · cases hok : buildBackendPayload SPEC cityProbeInput with
    | error e => simp [resultGroupKey]
    | ok p =>
      simpa [resultGroupKey] using
        (c8_city_cycle_shape SPEC cityProbeInput p rfl hok (by decide) (by decide)).1
  · cases hok : buildBackendPayload SPEC cityProbeInput with
    | error e =>
      have hfalse : isOkB (Except.error e : Except BuildErr GObj) = true := by
        rw [← hok]; rfl
      exact absurd hfalse (by simp [isOkB])
    | ok p =>
      have h := (c8_city_cycle_shape SPEC cityProbeInput p rfl hok (by decide) (by decide)).2.2.1
      simp only [resultGroupKey, hok]
      rw [h]
      rfl

/-! ## Step-shape lemmas for the branch chain -/

theorem getD_read_eq_groupKey (t : GObj) (g k : String) :
    alookup ((alookup t g).getD []) k = groupKey t g k := by
  unfold groupKey
  cases h : alookup t g with
  | none => simp [alookup]
  | some fs => simp

theorem standardStep_ok_cases {b : Bool} {tpl t' : GObj}
    (h : standardStep b tpl = .ok t') :
    t' = tpl ∨ ∃ dc, alookup tpl "Driving_Cycle" = some dc ∧
      t' = aset tpl "Driving_Cycle"
        (aset (aset (aset dc "Time_s" .null) "Speed_mps" .null) "Altitude_m" (.num 0)) := by
  unfold standardStep at h
  cases b with
  | false => simp only [Bool.false_eq_true, if_false, Except.ok.injEq] at h; exact Or.inl h.symm
  | true =>
    simp only [if_true] at h
    split at h
    · rename_i dc hdc
      simp only [Except.ok.injEq] at h
      exact Or.inr ⟨dc, hdc, h.symm⟩
    · exact absurd h (by simp)

theorem standardStep_gkey_other {b : Bool} {tpl t' : GObj} {g f : String}
    (h : standardStep b tpl = .ok t')
    (hne : g ≠ "Driving_Cycle" ∨ (f ≠ "Time_s" ∧ f ≠ "Speed_mps" ∧ f ≠ "Altitude_m")) :
    groupKey t' g f = groupKey tpl g f := by
  rcases standardStep_ok_cases h with rfl | ⟨dc, hdc, rfl⟩
  · rfl
  · unfold groupKey
    by_cases hg : g = "Driving_Cycle"
    · subst hg
      obtain ⟨h1, h2, h3⟩ := hne.resolve_left (by simp)
      rw [alookup_aset_self, hdc]
      simp only [Option.some_bind]
      rw [alookup_aset_other _ (fun he => h3 he.symm),
          alookup_aset_other _ (fun he => h2 he.symm),
          alookup_aset_other _ (fun he => h1 he.symm)]
    · rw [alookup_aset_other _ (fun he => hg he.symm)]

theorem standardStep_alookup_group_other {b : Bool} {tpl t' : GObj} {g : String}
    (h : standardStep b tpl = .ok t') (hg : g ≠ "Driving_Cycle") :
    alookup t' g = alookup tpl g := by
  rcases standardStep_ok_cases h with rfl | ⟨dc, hdc, rfl⟩
  · rfl
  · exact alookup_aset_other _ (fun he => hg he.symm) _

theorem customStep_ok_cases {b : Bool} {mapped tpl t' : GObj}
    (h : customStep b mapped tpl = .ok t') :
    t' = tpl ∨ ∃ dc altV, alookup tpl "Driving_Cycle" = some dc ∧
      t' = aset tpl "Driving_Cycle" (aset dc "Altitude_m" altV) := by
  unfold customStep at h
  cases b with
  | false => simp only [Bool.false_eq_true, if_false, Except.ok.injEq] at h; exact Or.inl h.symm
  | true =>
    simp only [if_true] at h
    split at h
    · exact absurd h (by simp)
    · rename_i dc hdc
      split at h
      · exact absurd h (by simp)
      · split at h
        · exact absurd h (by simp)
        · simp only [Except.ok.injEq] at h
          exact Or.inr ⟨dc, _, hdc, h.symm⟩

theorem customStep_gkey_other {b : Bool} {mapped tpl t' : GObj} {g f : String}
    (h : customStep b mapped tpl = .ok t')
    (hne : g ≠ "Driving_Cycle" ∨ f ≠ "Altitude_m") :
    groupKey t' g f = groupKey tpl g f := by
  rcases customStep_ok_cases h with rfl | ⟨dc, altV, hdc, rfl⟩
  · rfl
  · unfold groupKey
    by_cases hg : g = "Driving_Cycle"
    · subst hg
      have hf : f ≠ "Altitude_m" := hne.resolve_left (by simp)
      rw [alookup_aset_self, hdc]
      simp only [Option.some_bind]
      rw [alookup_aset_other _ (fun he => hf he.symm)]
    · rw [alookup_aset_other _ (fun he => hg he.symm)]

theorem customStep_alookup_group_other {b : Bool} {mapped tpl t' : GObj} {g : String}
    (h : customStep b mapped tpl = .ok t') (hg : g ≠ "Driving_Cycle") :
    alookup t' g = alookup tpl g := by
  rcases customStep_ok_cases h with rfl | ⟨dc, altV, hdc, rfl⟩
  · rfl
  · exact alookup_aset_other _ (fun he => hg he.symm) _

theorem scenarioStep_ok_cases {spec : Spec} {b : Bool} {tpl t' : GObj}
    (h : scenarioStep spec b tpl = .ok t') :
    t' = adel tpl "Scenario_data" ∨ ∃ sd', t' = aset tpl "Scenario_data" sd' := by
  unfold scenarioStep at h
  cases b with
  | false => simp only [Bool.not_false, if_true, Except.ok.injEq] at h; exact Or.inl h.symm
  | true =>
    simp only [Bool.not_true, Bool.false_eq_true, if_false] at h
    split at h
    · exact absurd h (by simp)
    · simp only [Except.ok.injEq] at h
      exact Or.inr ⟨_, h.symm⟩

theorem scenarioStep_alookup_group_other {spec : Spec} {b : Bool} {tpl t' : GObj}
    {g : String} (h : scenarioStep spec b tpl = .ok t') (hg : g ≠ "Scenario_data") :
    alookup t' g = alookup tpl g := by
  rcases scenarioStep_ok_cases h with rfl | ⟨sd', rfl⟩
  · exact alookup_adel_other _ (fun he => hg he.symm)
  · exact alookup_aset_other _ (fun he => hg he.symm) _

theorem standardStep_ok_of {b : Bool} {tpl : GObj}
    (hb : b = true → (alookup tpl "Driving_Cycle").isSome) :
    ∃ t', standardStep b tpl = .ok t' := by
  cases b with
  | false => exact ⟨tpl, rfl⟩
  | true =>
    obtain ⟨dc, hdc⟩ := Option.isSome_iff_exists.mp (hb rfl)
    exact ⟨_, by unfold standardStep; rw [if_pos rfl, hdc]⟩

theorem customStep_ok_of {b : Bool} {mapped tpl : GObj}
    (hb : b = true →
      (alookup tpl "Driving_Cycle").isSome ∧
      ((isArrO (customResolved mapped ((alookup tpl "Driving_Cycle").getD []) "Time_s") &&
        !isArrO (customResolved mapped ((alookup tpl "Driving_Cycle").getD []) "Speed_mps")) ||
       (!isArrO (customResolved mapped ((alookup tpl "Driving_Cycle").getD []) "Time_s") &&
        isArrO (customResolved mapped ((alookup tpl "Driving_Cycle").getD []) "Speed_mps"))) = false ∧
      arrLenMismatch (customResolved mapped ((alookup tpl "Driving_Cycle").getD []) "Time_s")
        (customResolved mapped ((alookup tpl "Driving_Cycle").getD []) "Speed_mps") = false) :
    ∃ t', customStep b mapped tpl = .ok t' := by
  cases b with
  | false => exact ⟨tpl, rfl⟩
  | true =>
    obtain ⟨hdc, hxor, hlen⟩ := hb rfl
    obtain ⟨dc, hdcv⟩ := Option.isSome_iff_exists.mp hdc
    rw [hdcv] at hxor hlen
    simp only [Option.getD_some] at hxor hlen
    refine ⟨aset tpl "Driving_Cycle" (aset dc "Altitude_m"
      (customAltitude ((alookup mapped "Driving_Cycle").bind
        (fun m => alookup m "Altitude_m")))), ?_⟩
    unfold customStep
    simp only [if_true, hdcv, hxor, hlen, Bool.false_eq_true, if_false]

theorem scenarioStep_ok_of {spec : Spec} {b : Bool} {tpl : GObj}
    (hb : b = true → (alookup spec.template "Scenario_data").isSome) :
    ∃ t', scenarioStep spec b tpl = .ok t' := by
  cases b with
  | false => exact ⟨_, rfl⟩
  | true =>
    unfold scenarioStep
    simp only [Bool.not_true, Bool.false_eq_true, if_false]
    cases hvl : nonNullish (alookup ((alookup tpl "Scenario_data").getD []) "VehicleLength") with
    | some v => exact ⟨_, rfl⟩
    | none =>
      obtain ⟨tsd, htsd⟩ := Option.isSome_iff_exists.mp (hb rfl)
      rw [htsd]
      exact ⟨_, rfl⟩

theorem ecoStep_error_of {mapped tpl : GObj}
    (hc : jsNumberOpt (groupKey tpl "Driving_Cycle" "ECO_Options") = some 2)
    (hthr : nonNullish ((alookup mapped "Driving_Cycle").bind
      (fun m => alookup m "ECO_Threshold")) = none) :
    ecoStep mapped tpl =
      .error (.missingRequiredField
        "ECO_Threshold is required when ECO_Options = ECO_Threshold") := by
  simp only [ecoStep]
  rw [getD_read_eq_groupKey, if_pos hc, hthr]

theorem ecoStep_sets_null {mapped tpl t' : GObj}
    (h : ecoStep mapped tpl = .ok t')
    (hc : jsNumberOpt (groupKey tpl "Driving_Cycle" "ECO_Options") ≠ some 2) :
    groupKey t' "Driving_Cycle" "ECO_Threshold" = some .null := by
  simp only [ecoStep] at h
  rw [getD_read_eq_groupKey, if_neg hc] at h
  split at h
  · rename_i fs hdc
    simp only [Except.ok.injEq] at h
    subst h
    unfold groupKey
    rw [alookup_aset_self]
    simp only [Option.some_bind]
    exact alookup_aset_self fs _ _
  · exact absurd h (by simp)

theorem ecoStep_ok_of {mapped tpl : GObj}
    (hdc : (alookup tpl "Driving_Cycle").isSome)
    (hthr : jsNumberOpt (groupKey tpl "Driving_Cycle" "ECO_Options") = some 2 →
      (nonNullish ((alookup mapped "Driving_Cycle").bind
        (fun m => alookup m "ECO_Threshold"))).isSome) :
    ∃ t', ecoStep mapped tpl = .ok t' := by
  by_cases hc : jsNumberOpt (groupKey tpl "Driving_Cycle" "ECO_Options") = some 2
  · obtain ⟨w, hw⟩ := Option.isSome_iff_exists.mp (hthr hc)
    refine ⟨tpl, ?_⟩
    simp only [ecoStep]
    rw [getD_read_eq_groupKey, if_pos hc, hw]
  · obtain ⟨dc, hdcv⟩ := Option.isSome_iff_exists.mp hdc
    refine ⟨aset tpl "Driving_Cycle" (aset dc "ECO_Threshold" JVal.null), ?_⟩
    simp only [ecoStep]
    rw [getD_read_eq_groupKey, if_neg hc, hdcv]

theorem isCustomB_eq {c : Option Int} (h : isCustomB c = true) : c = some 6 :=
  eq_of_beq h

theorem isStandardB_elim {c : Option Int} (h : isStandardB c = true) :
    isCityB c = false ∧ isCustomB c = false := by
  cases c with
  | none => simp [isStandardB] at h
  | some n =>
    have hmem : n ∈ [(1 : Int), 2, 3, 4, 5] := by
      simpa [isStandardB] using h
    simp only [List.mem_cons, List.mem_singleton] at hmem
    rcases hmem with rfl | rfl | rfl | rfl | hmem
    · exact ⟨rfl, rfl⟩
    · exact ⟨rfl, rfl⟩
    · exact ⟨rfl, rfl⟩
    · exact ⟨rfl, rfl⟩
    · rcases hmem with rfl | hmem
      · exact ⟨rfl, rfl⟩
      · cases hmem

theorem group_some_of_num {t : GObj} {g k : String} {n : Int}
    (h : jsNumberOpt (alookup ((alookup t g).getD []) k) = some n) :
    (alookup t g).isSome := by
  cases ht : alookup t g with
  | some fs => rfl
  | none =>
    rw [ht] at h
    simp only [Option.getD_none, alookup, jsNumberOpt] at h
    exact Option.noConfusion h

theorem mergedEcoOptions_eq (spec : Spec) (inputData : JVal) :
    mergedEcoOptions spec inputData =
      jsNumberOpt (groupKey (mergedPayload spec inputData) "Driving_Cycle" "ECO_Options") := by
  unfold mergedEcoOptions
  rw [getD_read_eq_groupKey]

theorem mergedCycleType_eq (spec : Spec) (inputData : JVal) :
    mergedCycleType spec inputData =
      jsNumberOpt (groupKey (mergedPayload spec inputData) "Driving_Cycle" "Cycle_Type") := by
  unfold mergedCycleType
  rw [getD_read_eq_groupKey]

/-! ## Claim C6 -/

/-- The two Custom-branch array checks, evaluated on the merged payload
(the state the branch actually sees, since for `Cycle_Type = 6` the
Standard and City branches do not run). -/
def customChecksPass (spec : Spec) (inputData : JVal) : Bool :=
  let mapped := mapInputToBackend (buildFieldMaps spec).uiMap inputData
  let dc := (alookup (mergedPayload spec inputData) "Driving_Cycle").getD []
  let t := customResolved mapped dc "Time_s"
  let s := customResolved mapped dc "Speed_mps"
  !((isArrO t && !isArrO s) || (!isArrO t && isArrO s)) && !arrLenMismatch t s

/-- C6 (amended): (1) when the merged `ECO_Options` is the threshold code 2
and the caller supplied no non-null `ECO_Threshold`, the build fails with
`MissingRequiredField` — provided no earlier rule fails first (for a Custom
cycle the array checks must pass; for a Standard cycle the fixed template
has its `Scenario_data` group).  (2) For every other merged `ECO_Options`
value, a successful build always carries `ECO_Threshold = null`, whatever
the caller supplied (hypothesis: the fixed specification does not mark
`Driving_Cycle.ECO_Threshold` calculated, which would delete the key). -/
theorem c6_eco_threshold_gating (spec : Spec) (inputData : JVal) :
    ((mergedEcoOptions spec inputData = some 2) →
     (nonNullish ((alookup (mapInputToBackend (buildFieldMaps spec).uiMap inputData)
        "Driving_Cycle").bind (fun m => alookup m "ECO_Threshold")) = none) →
     (isStandardB (mergedCycleType spec inputData) = true →
        (alookup spec.template "Scenario_data").isSome) →
     (isCustomB (mergedCycleType spec inputData) = true →
        customChecksPass spec inputData = true) →
     buildBackendPayload spec inputData =
       .error (.missingRequiredField
         "ECO_Threshold is required when ECO_Options = ECO_Threshold")) ∧
    (∀ payload, mergedEcoOptions spec inputData ≠ some 2 →
     buildBackendPayload spec inputData = .ok payload →
     (∀ c ∈ (buildFieldMaps spec).calculatedKeys,
        splitPair c ≠ ("Driving_Cycle", "ECO_Threshold")) →
     groupKey payload "Driving_Cycle" "ECO_Threshold" = some .null) := by
  constructor
  · intro hg hthr hsd hnv
    have hg' : jsNumberOpt (alookup ((alookup (mergedPayload spec inputData)
        "Driving_Cycle").getD []) "ECO_Options") = some 2 := hg
    have hdc0 : (alookup (mergedPayload spec inputData) "Driving_Cycle").isSome :=
      group_some_of_num hg' 
    have hecoM : jsNumberOpt (groupKey (mergedPayload spec inputData)
        "Driving_Cycle" "ECO_Options") = some 2 := by
      rw [← mergedEcoOptions_eq]; exact hg
    by_cases hb3 : isCustomB (mergedCycleType spec inputData) = true
    · have hct : mergedCycleType spec inputData = some 6 := isCustomB_eq hb3
      have heq : buildBackendPayload spec inputData =
          (match customStep true (mapInputToBackend (buildFieldMaps spec).uiMap inputData)
              (mergedPayload spec inputData) with
           | .error e => .error e
           | .ok t3 =>
             match ecoStep (mapInputToBackend (buildFieldMaps spec).uiMap inputData)
                (adel t3 "Scenario_data") with
             | .error e => .error e
             | .ok t5 => .ok (scrubCalculated (buildFieldMaps spec).calculatedKeys
                 (energyStep (mapInputToBackend (buildFieldMaps spec).uiMap inputData)
                   (chargerStep t5)))) := by
        simp only [buildBackendPayload, hct]
        rfl
      have hchecks := hnv hb3
      simp only [customChecksPass, Bool.and_eq_true, Bool.not_eq_true'] at hchecks
      obtain ⟨t3, h3⟩ := @customStep_ok_of true
        (mapInputToBackend (buildFieldMaps spec).uiMap inputData)
        (mergedPayload spec inputData)
        (fun _ => ⟨hdc0, hchecks.1, hchecks.2⟩)
      rw [heq, h3]
      show (match ecoStep (mapInputToBackend (buildFieldMaps spec).uiMap inputData)
              (adel t3 "Scenario_data") with
            | .error e => (.error e : Except BuildErr GObj)
            | .ok t5 => .ok (scrubCalculated (buildFieldMaps spec).calculatedKeys
                (energyStep (mapInputToBackend (buildFieldMaps spec).uiMap inputData)
                  (chargerStep t5)))) = _
      have hcond : jsNumberOpt (groupKey (adel t3 "Scenario_data")
          "Driving_Cycle" "ECO_Options") = some 2 := by
        rw [groupKey_adel_group_other (by decide),
            customStep_gkey_other h3 (Or.inr (by decide))]
        exact hecoM
      rw [ecoStep_error_of hcond hthr]
    · by_cases hb1 : isStandardB (mergedCycleType spec inputData) = true
      · obtain ⟨hcity, hcust⟩ := isStandardB_elim hb1
        have heqS : buildBackendPayload spec inputData =
            (match standardStep true (mergedPayload spec inputData) with
             | .error e => .error e
             | .ok t1 =>
               match scenarioStep spec true t1 with
               | .error e => .error e
               | .ok t4 =>
                 match ecoStep (mapInputToBackend (buildFieldMaps spec).uiMap inputData) t4 with
                 | .error e => .error e
                 | .ok t5 => .ok (scrubCalculated (buildFieldMaps spec).calculatedKeys
                     (energyStep (mapInputToBackend (buildFieldMaps spec).uiMap inputData)
                       (chargerStep t5)))) := by
          simp only [buildBackendPayload, hb1, hcity, hcust]
          rfl
        obtain ⟨t1, h1⟩ := @standardStep_ok_of true
          (mergedPayload spec inputData) (fun _ => hdc0)
        rw [heqS, h1]
        show (match scenarioStep spec true t1 with
              | .error e => (.error e : Except BuildErr GObj)
              | .ok t4 =>
                match ecoStep (mapInputToBackend (buildFieldMaps spec).uiMap inputData) t4 with
                | .error e => .error e
                | .ok t5 => .ok (scrubCalculated (buildFieldMaps spec).calculatedKeys
                    (energyStep (mapInputToBackend (buildFieldMaps spec).uiMap inputData)
                      (chargerStep t5)))) = _
        obtain ⟨t4, h4⟩ := @scenarioStep_ok_of spec true t1 (fun _ => hsd hb1)
        rw [h4]
        show (match ecoStep (mapInputToBackend (buildFieldMaps spec).uiMap inputData) t4 with
              | .error e => (.error e : Except BuildErr GObj)
              | .ok t5 => .ok (scrubCalculated (buildFieldMaps spec).calculatedKeys
                  (energyStep (mapInputToBackend (buildFieldMaps spec).uiMap inputData)
                    (chargerStep t5)))) = _
        have hcond : jsNumberOpt (groupKey t4 "Driving_Cycle" "ECO_Options") = some 2 := by
          rw [groupKey_congr (scenarioStep_alookup_group_other h4 (by decide)),
              standardStep_gkey_other h1 (Or.inr ⟨by decide, by decide, by decide⟩)]
          exact hecoM
        rw [ecoStep_error_of hcond hthr]
      · simp only [Bool.not_eq_true] at hb1 hb3
        have heqN : buildBackendPayload spec inputData =
            (match ecoStep (mapInputToBackend (buildFieldMaps spec).uiMap inputData)
                (adel (cityStep (isCityB (mergedCycleType spec inputData))
                  (mergedPayload spec inputData)) "Scenario_data") with
             | .error e => .error e
             | .ok t5 => .ok (scrubCalculated (buildFieldMaps spec).calculatedKeys
                 (energyStep (mapInputToBackend (buildFieldMaps spec).uiMap inputData)
                   (chargerStep t5)))) := by
          simp only [buildBackendPayload, hb1, hb3]
          rfl
        have hcond : jsNumberOpt (groupKey
            (adel (cityStep (isCityB (mergedCycleType spec inputData))
              (mergedPayload spec inputData)) "Scenario_data")
            "Driving_Cycle" "ECO_Options") = some 2 := by
          rw [groupKey_adel_group_other (by decide),
              cityStep_gkey_other_key _ (by decide)]
          exact hecoM
        rw [heqN, ecoStep_error_of hcond hthr]
  · intro payload hne hok hkf
    simp only [buildBackendPayload] at hok
    split at hok
    · exact absurd hok (by simp)
    · rename_i t1 h1
      split at hok
      · exact absurd hok (by simp)
      · rename_i t3 h3
        split at hok
        · exact absurd hok (by simp)
        · rename_i t4 h4
          split at hok
          · exact absurd hok (by simp)
          · rename_i t5 h5
            simp only [Except.ok.injEq] at hok
            subst hok
            have hchain : groupKey t4 "Driving_Cycle" "ECO_Options" =
                groupKey (mergedPayload spec inputData) "Driving_Cycle" "ECO_Options" := by
              rw [groupKey_congr (scenarioStep_alookup_group_other h4 (by decide)),
                  customStep_gkey_other h3 (Or.inr (by decide)),
                  cityStep_gkey_other_key _ (by decide),
                  standardStep_gkey_other h1 (Or.inr ⟨by decide, by decide, by decide⟩)]
            have hcond : jsNumberOpt (groupKey t4 "Driving_Cycle" "ECO_Options") ≠ some 2 := by
              rw [hchain, ← mergedEcoOptions_eq]
              exact hne
            rw [scrub_gkey_other _ _ hkf,
                groupKey_congr (energyStep_alookup_other (by decide)),
                groupKey_congr (chargerStep_alookup_other (by decide))]
            exact ecoStep_sets_null h5 hcond

def ecoCustomClashInput : JVal :=
  .obj [("Driving_Cycle", .obj
    [("Cycle_Type", .num 6), ("ECO_Options", .num 2),
     ("Time_s", .arr [.num 0]), ("Speed_mps", .num 3)])]

/-- C6 (counterexample to the claim as stated): merged `ECO_Options = 2`
with no caller threshold does *not* always fail with
`MissingRequiredField` — a Custom cycle whose array rule is violated fails
earlier, with `InvalidScenario`. -/
theorem c6_counterexample_custom_clash_preempts :
    mergedEcoOptions SPEC ecoCustomClashInput = some 2 ∧
    nonNullish ((alookup (mapInputToBackend (buildFieldMaps SPEC).uiMap ecoCustomClashInput)
      "Driving_Cycle").bind (fun m => alookup m "ECO_Threshold")) = none ∧
    buildBackendPayload SPEC ecoCustomClashInput =
      .error (.invalidScenario "Time_s and Speed_mps must both be arrays for Custom cycle") :=
  ⟨rfl, rfl, rfl⟩

def ecoMissingInput : JVal :=
  .obj [("Driving_Cycle", .obj [("Cycle_Type", .num 0), ("ECO_Options", .num 2)])]

def ecoOtherInput : JVal :=
  .obj [("Driving_Cycle", .obj
    [("Cycle_Type", .num 0), ("ECO_Options", .num 0), ("ECO_Threshold", .num 5)])]

/-- Witness for C6: the gate fires on a City input with `ECO_Options = 2`
and no threshold; with `ECO_Options = 0` the output threshold is null even
though the caller supplied the number 5. -/
theorem c6_eco_threshold_gating_witness :
    buildBackendPayload SPEC ecoMissingInput =
      .error (.missingRequiredField
        "ECO_Threshold is required when ECO_Options = ECO_Threshold") ∧
    resultGroupKey (buildBackendPayload SPEC ecoOtherInput)
      "Driving_Cycle" "ECO_Threshold" = some .null := by
  constructor
  · exact (c6_eco_threshold_gating SPEC ecoMissingInput).1 rfl rfl (by decide) (by decide)
  · cases hok : buildBackendPayload SPEC ecoOtherInput with
    | error e =>
      have hfalse : isOkB (Except.error e : Except BuildErr GObj) = true := by
        rw [← hok]; rfl
      exact absurd hfalse (by simp [isOkB])
    | ok p =>
      simp only [resultGroupKey]
      exact (c6_eco_threshold_gating SPEC ecoOtherInput).2 p (by decide) hok (by decide)

/-! ## Claim C5 -/

/-- `(Array.isArray(t) && !Array.isArray(s)) || (!Array.isArray(t) && Array.isArray(s))`
on the values the Custom branch resolves from the merged payload. -/
def customXorViolation (spec : Spec) (inputData : JVal) : Bool :=
  let mapped := mapInputToBackend (buildFieldMaps spec).uiMap inputData
  let dc := (alookup (mergedPayload spec inputData) "Driving_Cycle").getD []
  let t := customResolved mapped dc "Time_s"
  let s := customResolved mapped dc "Speed_mps"
  (isArrO t && !isArrO s) || (!isArrO t && isArrO s)

/-- Both resolved series are arrays of different lengths. -/
def customLenViolation (spec : Spec) (inputData : JVal) : Bool :=
  let mapped := mapInputToBackend (buildFieldMaps spec).uiMap inputData
  let dc := (alookup (mergedPayload spec inputData) "Driving_Cycle").getD []
  arrLenMismatch (customResolved mapped dc "Time_s") (customResolved mapped dc "Speed_mps")

theorem customChecksPass_eq (spec : Spec) (inputData : JVal) :
    customChecksPass spec inputData =
      (!customXorViolation spec inputData && !customLenViolation spec inputData) := rfl

theorem customStep_xor_error {mapped tpl : GObj} {dc : JObj}
    (hdcv : alookup tpl "Driving_Cycle" = some dc)
    (hxor : ((isArrO (customResolved mapped dc "Time_s") &&
              !isArrO (customResolved mapped dc "Speed_mps")) ||
             (!isArrO (customResolved mapped dc "Time_s") &&
              isArrO (customResolved mapped dc "Speed_mps"))) = true) :
    customStep true mapped tpl =
      .error (.invalidScenario "Time_s and Speed_mps must both be arrays for Custom cycle") := by
  unfold customStep
  simp only [if_true, hdcv, hxor]

theorem customStep_len_error {mapped tpl : GObj} {dc : JObj}
    (hdcv : alookup tpl "Driving_Cycle" = some dc)
    (hxor : ((isArrO (customResolved mapped dc "Time_s") &&
              !isArrO (customResolved mapped dc "Speed_mps")) ||
             (!isArrO (customResolved mapped dc "Time_s") &&
              isArrO (customResolved mapped dc "Speed_mps"))) = false)
    (hlen : arrLenMismatch (customResolved mapped dc "Time_s")
              (customResolved mapped dc "Speed_mps") = true) :
    customStep true mapped tpl =
      .error (.invalidScenario "Time_s and Speed_mps arrays must have the same length") := by
  unfold customStep
  simp only [if_true, hdcv, hxor, hlen, Bool.false_eq_true, if_false]

theorem customStep_eq_ok {mapped tpl : GObj} {dc : JObj}
    (hdcv : alookup tpl "Driving_Cycle" = some dc)
    (hxor : ((isArrO (customResolved mapped dc "Time_s") &&
              !isArrO (customResolved mapped dc "Speed_mps")) ||
             (!isArrO (customResolved mapped dc "Time_s") &&
              isArrO (customResolved mapped dc "Speed_mps"))) = false)
    (hlen : arrLenMismatch (customResolved mapped dc "Time_s")
              (customResolved mapped dc "Speed_mps") = false) :
    customStep true mapped tpl =
      .ok (aset tpl "Driving_Cycle" (aset dc "Altitude_m"
        (customAltitude ((alookup mapped "Driving_Cycle").bind
          (fun m => alookup m "Altitude_m"))))) := by
  unfold customStep
  simp only [if_true, hdcv, hxor, hlen, Bool.false_eq_true, if_false]

theorem ecoStep_no_invalidScenario {mapped tpl : GObj} {e : BuildErr}
    (h : ecoStep mapped tpl = .error e) :
    ∀ s, e ≠ .invalidScenario s := by
  intro s
  simp only [ecoStep] at h
  split at h
  · split at h
    · simp only [Except.error.injEq] at h
      subst h
      intro hc
      exact BuildErr.noConfusion hc
    · exact absurd h (by simp)
  · split at h
    · exact absurd h (by simp)
    · simp only [Except.error.injEq] at h
      subst h
      intro hc
      exact BuildErr.noConfusion hc

/-- With merged `Cycle_Type = 6`, the build runs exactly the Custom chain. -/
theorem build_eq_custom_chain (spec : Spec) (inputData : JVal)
    (hct : mergedCycleType spec inputData = some 6) :
    buildBackendPayload spec inputData =
      (match customStep true (mapInputToBackend (buildFieldMaps spec).uiMap inputData)
          (mergedPayload spec inputData) with
       | .error e => .error e
       | .ok t3 =>
         match ecoStep (mapInputToBackend (buildFieldMaps spec).uiMap inputData)
            (adel t3 "Scenario_data") with
         | .error e => .error e
         | .ok t5 => .ok (scrubCalculated (buildFieldMaps spec).calculatedKeys
             (energyStep (mapInputToBackend (buildFieldMaps spec).uiMap inputData)
               (chargerStep t5)))) := by
  simp only [buildBackendPayload, hct]
  rfl

/-- C5 (amended): with merged `Cycle_Type = 6` (Custom), the build fails
with `InvalidScenario` exactly when one of the resolved
`Time_s`/`Speed_mps` values is an array and the other is not, or both are
arrays of different lengths.  When the two checks pass, no
`InvalidScenario` is ever raised; the build succeeds provided the later
ECO-threshold gate passes, and then `Altitude_m` is the caller's mapped
value unchanged when a non-null, non-empty value was supplied and scalar 0
otherwise (`customAltitude`; the calculated-key hypothesis says the fixed
specification does not mark `Altitude_m` calculated). -/
theorem c5_custom_cycle_array_rules (spec : Spec) (inputData : JVal)
    (hct : mergedCycleType spec inputData = some 6) :
    (customXorViolation spec inputData = true →
      buildBackendPayload spec inputData =
        .error (.invalidScenario "Time_s and Speed_mps must both be arrays for Custom cycle")) ∧
    (customXorViolation spec inputData = false →
     customLenViolation spec inputData = true →
      buildBackendPayload spec inputData =
        .error (.invalidScenario "Time_s and Speed_mps arrays must have the same length")) ∧
    (customChecksPass spec inputData = true →
      ∀ msg, buildBackendPayload spec inputData ≠ .error (.invalidScenario msg)) ∧
    (customChecksPass spec inputData = true →
     (mergedEcoOptions spec inputData = some 2 →
       (nonNullish ((alookup (mapInputToBackend (buildFieldMaps spec).uiMap inputData)
         "Driving_Cycle").bind (fun m => alookup m "ECO_Threshold"))).isSome) →
     (∀ c ∈ (buildFieldMaps spec).calculatedKeys,
        splitPair c ≠ ("Driving_Cycle", "Altitude_m")) →
     isOkB (buildBackendPayload spec inputData) = true ∧
     resultGroupKey (buildBackendPayload spec inputData) "Driving_Cycle" "Altitude_m" =
       some (customAltitude ((alookup (mapInputToBackend (buildFieldMaps spec).uiMap inputData)
         "Driving_Cycle").bind (fun m => alookup m "Altitude_m")))) := by
  have hct' : jsNumberOpt (alookup ((alookup (mergedPayload spec inputData)
      "Driving_Cycle").getD []) "Cycle_Type") = some 6 := hct
  have hdc0 : (alookup (mergedPayload spec inputData) "Driving_Cycle").isSome :=
    group_some_of_num hct'
  obtain ⟨dcM, hdcM⟩ := Option.isSome_iff_exists.mp hdc0
  have hxorEq : customXorViolation spec inputData =
      ((isArrO (customResolved (mapInputToBackend (buildFieldMaps spec).uiMap inputData)
          dcM "Time_s") &&
        !isArrO (customResolved (mapInputToBackend (buildFieldMaps spec).uiMap inputData)
          dcM "Speed_mps")) ||
       (!isArrO (customResolved (mapInputToBackend (buildFieldMaps spec).uiMap inputData)
          dcM "Time_s") &&
        isArrO (customResolved (mapInputToBackend (buildFieldMaps spec).uiMap inputData)
          dcM "Speed_mps"))) := by
    simp only [customXorViolation, hdcM, Option.getD_some]
  have hlenEq : customLenViolation spec inputData =
      arrLenMismatch
        (customResolved (mapInputToBackend (buildFieldMaps spec).uiMap inputData) dcM "Time_s")
        (customResolved (mapInputToBackend (buildFieldMaps spec).uiMap inputData) dcM "Speed_mps") := by
    simp only [customLenViolation, hdcM, Option.getD_some]
  refine ⟨?_, ?_, ?_, ?_⟩
  · intro hxor
    rw [hxorEq] at hxor
    rw [build_eq_custom_chain spec inputData hct, customStep_xor_error hdcM hxor]
  · intro hxor hlen
    rw [hxorEq] at hxor
    rw [hlenEq] at hlen
    rw [build_eq_custom_chain spec inputData hct, customStep_len_error hdcM hxor hlen]
  · intro hpass msg hcontra
    rw [customChecksPass_eq, Bool.and_eq_true, Bool.not_eq_true', Bool.not_eq_true'] at hpass
    obtain ⟨hx, hl⟩ := hpass
    rw [hxorEq] at hx
    rw [hlenEq] at hl
    rw [build_eq_custom_chain spec inputData hct, customStep_eq_ok hdcM hx hl] at hcontra
    replace hcontra : (match ecoStep (mapInputToBackend (buildFieldMaps spec).uiMap inputData)
        (adel (aset (mergedPayload spec inputData) "Driving_Cycle"
          (aset dcM "Altitude_m"
            (customAltitude ((alookup (mapInputToBackend (buildFieldMaps spec).uiMap inputData)
              "Driving_Cycle").bind (fun m => alookup m "Altitude_m"))))) "Scenario_data") with
      | .error e => (.error e : Except BuildErr GObj)
      | .ok t5 => .ok (scrubCalculated (buildFieldMaps spec).calculatedKeys
          (energyStep (mapInputToBackend (buildFieldMaps spec).uiMap inputData)
            (chargerStep t5)))) = .error (.invalidScenario msg) := hcontra
    cases heco : ecoStep (mapInputToBackend (buildFieldMaps spec).uiMap inputData)
        (adel (aset (mergedPayload spec inputData) "Driving_Cycle"
          (aset dcM "Altitude_m"
            (customAltitude ((alookup (mapInputToBackend (buildFieldMaps spec).uiMap inputData)
              "Driving_Cycle").bind (fun m => alookup m "Altitude_m"))))) "Scenario_data") with
    | ok t5 =>
      rw [heco] at hcontra
      simp at hcontra
    | error e =>
      rw [heco] at hcontra
      simp only [Except.error.injEq] at hcontra
      exact ecoStep_no_invalidScenario heco msg hcontra
  · intro hpass heco hkfA
    rw [customChecksPass_eq, Bool.and_eq_true, Bool.not_eq_true', Bool.not_eq_true'] at hpass
    obtain ⟨hx, hl⟩ := hpass
    rw [hxorEq] at hx
    rw [hlenEq] at hl
    have h3 := customStep_eq_ok hdcM hx hl
    have hecoEq : groupKey (adel (aset (mergedPayload spec inputData) "Driving_Cycle"
        (aset dcM "Altitude_m"
          (customAltitude ((alookup (mapInputToBackend (buildFieldMaps spec).uiMap inputData)
            "Driving_Cycle").bind (fun m => alookup m "Altitude_m"))))) "Scenario_data")
        "Driving_Cycle" "ECO_Options" =
        groupKey (mergedPayload spec inputData) "Driving_Cycle" "ECO_Options" := by
      unfold groupKey
      rw [alookup_adel_other _ (by decide), alookup_aset_self, hdcM]
      simp only [Option.some_bind]
      rw [alookup_aset_other _ (by decide)]
    have hdc4 : (alookup (adel (aset (mergedPayload spec inputData) "Driving_Cycle"
        (aset dcM "Altitude_m"
          (customAltitude ((alookup (mapInputToBackend (buildFieldMaps spec).uiMap inputData)
            "Driving_Cycle").bind (fun m => alookup m "Altitude_m"))))) "Scenario_data")
        "Driving_Cycle").isSome := by
      rw [alookup_adel_other _ (by decide), alookup_aset_self]
      rfl
    obtain ⟨t5, h5⟩ := ecoStep_ok_of hdc4
      (fun hcond => heco (by rw [mergedEcoOptions_eq, ← hecoEq]; exact hcond))
    constructor
    · rw [build_eq_custom_chain spec inputData hct, h3]
      show isOkB (match ecoStep (mapInputToBackend (buildFieldMaps spec).uiMap inputData)
          (adel (aset (mergedPayload spec inputData) "Driving_Cycle"
            (aset dcM "Altitude_m"
              (customAltitude ((alookup (mapInputToBackend (buildFieldMaps spec).uiMap inputData)
                "Driving_Cycle").bind (fun m => alookup m "Altitude_m"))))) "Scenario_data") with
        | .error e => (.error e : Except BuildErr GObj)
        | .ok t5 => .ok (scrubCalculated (buildFieldMaps spec).calculatedKeys
            (energyStep (mapInputToBackend (buildFieldMaps spec).uiMap inputData)
              (chargerStep t5)))) = true
      rw [h5]
      rfl
    · rw [build_eq_custom_chain spec inputData hct, h3]
      show resultGroupKey (match ecoStep (mapInputToBackend (buildFieldMaps spec).uiMap inputData)
          (adel (aset (mergedPayload spec inputData) "Driving_Cycle"
            (aset dcM "Altitude_m"
              (customAltitude ((alookup (mapInputToBackend (buildFieldMaps spec).uiMap inputData)
                "Driving_Cycle").bind (fun m => alookup m "Altitude_m"))))) "Scenario_data") with
        | .error e => (.error e : Except BuildErr GObj)
        | .ok t5 => .ok (scrubCalculated (buildFieldMaps spec).calculatedKeys
            (energyStep (mapInputToBackend (buildFieldMaps spec).uiMap inputData)
              (chargerStep t5)))) "Driving_Cycle" "Altitude_m" = _
      rw [h5]
      show groupKey (scrubCalculated (buildFieldMaps spec).calculatedKeys
          (energyStep (mapInputToBackend (buildFieldMaps spec).uiMap inputData)
            (chargerStep t5))) "Driving_Cycle" "Altitude_m" = _
      rw [scrub_gkey_other _ _ hkfA,
          groupKey_congr (energyStep_alookup_other (by decide)),
          groupKey_congr (chargerStep_alookup_other (by decide)),
          ecoStep_gkey_other h5 (Or.inr (by decide)),
          groupKey_adel_group_other (by decide)]
      unfold groupKey
      rw [alookup_aset_self]
      simp only [Option.some_bind]
      exact alookup_aset_self _ _ _

def customEcoInput : JVal :=
  .obj [("Driving_Cycle", .obj
    [("Cycle_Type", .num 6), ("Time_s", .arr [.num 0, .num 1]),
     ("Speed_mps", .arr [.num 5, .num 6]), ("ECO_Options", .num 2)])]

/-- C5 (counterexample to the claim as stated): both series are arrays of
equal length, yet the build does *not* succeed — the later ECO-threshold
rule fails it with `MissingRequiredField`. -/
theorem c5_counterexample_equal_arrays_can_fail :
    mergedCycleType SPEC customEcoInput = some 6 ∧
    customChecksPass SPEC customEcoInput = true ∧
    buildBackendPayload SPEC customEcoInput =
      .error (.missingRequiredField
        "ECO_Threshold is required when ECO_Options = ECO_Threshold") :=
  ⟨rfl, rfl, rfl⟩

def customXorInput : JVal :=
  .obj [("Driving_Cycle", .obj
    [("Cycle_Type", .num 6), ("Time_s", .arr [.num 0, .num 1]), ("Speed_mps", .num 3)])]

def customLenInput : JVal :=
  .obj [("Driving_Cycle", .obj
    [("Cycle_Type", .num 6), ("Time_s", .arr [.num 0, .num 1, .num 2]),
     ("Speed_mps", .arr [.num 5, .num 6])])]

def customOkInput : JVal :=
  .obj [("Driving_Cycle", .obj
    [("Cycle_Type", .num 6), ("Time_s", .arr [.num 0, .num 1]),
     ("Speed_mps", .arr [.num 5, .num 6]), ("Altitude_m", .arr [.num 1, .num 2])])]

/-- Witness for C5: the two failure modes at concrete inputs, and a
passing input whose caller-supplied altitude array survives unchanged. -/
theorem c5_custom_cycle_array_rules_witness :
    buildBackendPayload SPEC customXorInput =
      .error (.invalidScenario "Time_s and Speed_mps must both be arrays for Custom cycle") ∧
    buildBackendPayload SPEC customLenInput =
      .error (.invalidScenario "Time_s and Speed_mps arrays must have the same length") ∧
    isOkB (buildBackendPayload SPEC customOkInput) = true ∧
    resultGroupKey (buildBackendPayload SPEC customOkInput)
      "Driving_Cycle" "Altitude_m" = some (.arr [.num 1, .num 2]) := by
  refine ⟨?_, ?_, ?_, ?_⟩
  · exact (c5_custom_cycle_array_rules SPEC customXorInput rfl).1 rfl
  · exact (c5_custom_cycle_array_rules SPEC customLenInput rfl).2.1 rfl rfl
  · exact ((c5_custom_cycle_array_rules SPEC customOkInput rfl).2.2.2
      rfl (by decide) (by decide)).1
  · exact (((c5_custom_cycle_array_rules SPEC customOkInput rfl).2.2.2
      rfl (by decide) (by decide)).2).trans rfl

/-! ## Claim C7 -/

theorem standardStep_true_eq {tpl : GObj} {dc : JObj}
    (hdcv : alookup tpl "Driving_Cycle" = some dc) :
    standardStep true tpl = .ok (aset tpl "Driving_Cycle"
      (aset (aset (aset dc "Time_s" .null) "Speed_mps" .null) "Altitude_m" (.num 0))) := by
  unfold standardStep
  simp only [if_true, hdcv]

theorem mergeField_of_absent {ck : List String} {group : String} {src : JObj}
    {k : String} (h : alookup src k = none) (defVal : JVal) :
    mergeField ck group src k defVal = defVal := by
  unfold mergeField
  rw [h]
  simp

/-- Shape of a successful Standard-branch scenario reconstruction. -/
theorem scenarioStep_true_fields {spec : Spec} {tpl t' : GObj}
    (h : scenarioStep spec true tpl = .ok t') :
    ∃ vl, t' = aset tpl "Scenario_data"
      [("VehicleLength", vl),
       ("Return_Trip_Distance_km",
          (nonNullish (alookup ((alookup tpl "Scenario_data").getD [])
            "Return_Trip_Distance_km")).getD (.num 0)),
       ("Number_of_Buses_in_Fleet",
          (nonNullish (alookup ((alookup tpl "Scenario_data").getD [])
            "Number_of_Buses_in_Fleet")).getD (.num 0)),
       ("Average_Velocity_of_Route_kph",
          (nonNullish (alookup ((alookup tpl "Scenario_data").getD [])
            "Average_Velocity_of_Route_kph")).getD (.num 0))] ∧
      (nonNullish (alookup ((alookup tpl "Scenario_data").getD []) "VehicleLength") = some vl ∨
       (nonNullish (alookup ((alookup tpl "Scenario_data").getD []) "VehicleLength") = none ∧
        ∃ tsd, alookup spec.template "Scenario_data" = some tsd ∧
          vl = (alookup tsd "VehicleLength").getD .null)) := by
  simp only [scenarioStep, Bool.not_true, Bool.false_eq_true, if_false] at h
  cases hnn : nonNullish (alookup ((alookup tpl "Scenario_data").getD []) "VehicleLength") with
  | some v =>
    rw [hnn] at h
    simp only [Except.ok.injEq] at h
    exact ⟨v, h.symm, Or.inl rfl⟩
  | none =>
    rw [hnn] at h
    cases htsd : alookup spec.template "Scenario_data" with
    | none => rw [htsd] at h; exact absurd h (by simp)
    | some tsd =>
      rw [htsd] at h
      simp only [Except.ok.injEq] at h
      exact ⟨_, h.symm, Or.inr ⟨rfl, tsd, rfl, rfl⟩⟩

theorem scrubStep_group_isSome {t : GObj} {g : String} (key : String)
    (h : (alookup t g).isSome = true) : (alookup (scrubStep t key) g).isSome = true := by
  unfold scrubStep
  set p := splitPair key with hp
  cases ht : alookup t p.1 with
  | none => simpa [ht] using h
  | some fs =>
    simp only [ht]
    by_cases hs : (alookup fs p.2).isSome
    · simp only [hs, if_true]
      by_cases hg : p.1 = g
      · subst hg; rw [alookup_aset_self]; rfl
      · rw [alookup_aset_other _ hg]; exact h
    · simpa [hs] using h

theorem scrub_group_isSome {g : String} (ck : List String) (t : GObj)
    (h : (alookup t g).isSome = true) :
    (alookup (scrubCalculated ck t) g).isSome = true := by
  induction ck generalizing t with
  | nil => simpa [scrubCalculated] using h
  | cons key rest ih =>
    show (alookup (scrubCalculated rest (scrubStep t key)) g).isSome = true
    exact ih _ (scrubStep_group_isSome key h)

theorem nonNullish_some_eq {v w : JVal} (h : nonNullish (some v) = some w) : w = v := by
  cases v <;> simp [nonNullish] at h <;> exact h.symm

/-- C7: with merged `Cycle_Type` in the Standard set {1..5}, a successful
build forces `Time_s = null`, `Speed_mps = null`, `Altitude_m = 0`
regardless of caller input, retains the `Scenario_data` group, and gives
each of its four fields its last-resort default when the caller omitted it
(`VehicleLength` from the template; the other three 0, whose template
defaults the fixed specification leaves null).  The calculated-key
hypotheses state that the fixed specification marks none of the seven
fields calculated. -/
theorem c7_standard_cycle_forcing
    (spec : Spec) (inputData : JVal) (payload : GObj) (tsd : JObj) (vlDef : JVal)
    (hstd : isStandardB (mergedCycleType spec inputData) = true)
    (hok : buildBackendPayload spec inputData = .ok payload)
    (hTsd : alookup spec.template "Scenario_data" = some tsd)
    (htVL : alookup tsd "VehicleLength" = some vlDef)
    (hnRT : nonNullish (alookup tsd "Return_Trip_Distance_km") = none)
    (hnNB : nonNullish (alookup tsd "Number_of_Buses_in_Fleet") = none)
    (hnAV : nonNullish (alookup tsd "Average_Velocity_of_Route_kph") = none)
    (hkfT : ∀ c ∈ (buildFieldMaps spec).calculatedKeys,
      splitPair c ≠ ("Driving_Cycle", "Time_s"))
    (hkfS : ∀ c ∈ (buildFieldMaps spec).calculatedKeys,
      splitPair c ≠ ("Driving_Cycle", "Speed_mps"))
    (hkfA : ∀ c ∈ (buildFieldMaps spec).calculatedKeys,
      splitPair c ≠ ("Driving_Cycle", "Altitude_m"))
    (hkfVL : ∀ c ∈ (buildFieldMaps spec).calculatedKeys,
      splitPair c ≠ ("Scenario_data", "VehicleLength"))
    (hkfRT : ∀ c ∈ (buildFieldMaps spec).calculatedKeys,
      splitPair c ≠ ("Scenario_data", "Return_Trip_Distance_km"))
    (hkfNB : ∀ c ∈ (buildFieldMaps spec).calculatedKeys,
      splitPair c ≠ ("Scenario_data", "Number_of_Buses_in_Fleet"))
    (hkfAV : ∀ c ∈ (buildFieldMaps spec).calculatedKeys,
      splitPair c ≠ ("Scenario_data", "Average_Velocity_of_Route_kph")) :
    groupKey payload "Driving_Cycle" "Time_s" = some .null ∧
    groupKey payload "Driving_Cycle" "Speed_mps" = some .null ∧
    groupKey payload "Driving_Cycle" "Altitude_m" = some (.num 0) ∧
    (alookup payload "Scenario_data").isSome = true ∧
    (alookup ((alookup (mapInputToBackend (buildFieldMaps spec).uiMap inputData)
        "Scenario_data").getD []) "VehicleLength" = none →
      groupKey payload "Scenario_data" "VehicleLength" = some vlDef) ∧
    (alookup ((alookup (mapInputToBackend (buildFieldMaps spec).uiMap inputData)
        "Scenario_data").getD []) "Return_Trip_Distance_km" = none →
      groupKey payload "Scenario_data" "Return_Trip_Distance_km" = some (.num 0)) ∧
    (alookup ((alookup (mapInputToBackend (buildFieldMaps spec).uiMap inputData)
        "Scenario_data").getD []) "Number_of_Buses_in_Fleet" = none →
      groupKey payload "Scenario_data" "Number_of_Buses_in_Fleet" = some (.num 0)) ∧
    (alookup ((alookup (mapInputToBackend (buildFieldMaps spec).uiMap inputData)
        "Scenario_data").getD []) "Average_Velocity_of_Route_kph" = none →
      groupKey payload "Scenario_data" "Average_Velocity_of_Route_kph" = some (.num 0)) := by
  obtain ⟨hcity, hcust⟩ := isStandardB_elim hstd
  have hdc0 : (alookup (mergedPayload spec inputData) "Driving_Cycle").isSome := by
    cases hctv : mergedCycleType spec inputData with
    | none => rw [hctv] at hstd; exact absurd hstd (by simp [isStandardB])
    | some n =>
      have h' : jsNumberOpt (alookup ((alookup (mergedPayload spec inputData)
          "Driving_Cycle").getD []) "Cycle_Type") = some n := hctv
      exact group_some_of_num h'
  obtain ⟨dcM, hdcM⟩ := Option.isSome_iff_exists.mp hdc0
  have hsdM : alookup (mergedPayload spec inputData) "Scenario_data" =
      some (keyedMap (mergeField (buildFieldMaps spec).calculatedKeys "Scenario_data"
        ((alookup (mapInputToBackend (buildFieldMaps spec).uiMap inputData)
          "Scenario_data").getD [])) tsd) := by
    unfold mergedPayload
    rw [alookup_mergeTemplate, hTsd]
    simp only [Option.map_some']
  simp only [buildBackendPayload] at hok
  split at hok
  · exact absurd hok (by simp)
  · rename_i t1 h1
    split at hok
    · exact absurd hok (by simp)
    · rename_i t3 h3
      split at hok
      · exact absurd hok (by simp)
      · rename_i t4 h4
        split at hok
        · exact absurd hok (by simp)
        · rename_i t5 h5
          simp only [Except.ok.injEq] at hok
          subst hok
          rw [hstd, standardStep_true_eq hdcM] at h1
          simp only [Except.ok.injEq] at h1
          subst h1
          rw [hcity, hcust] at h3
          have h3' : (Except.ok (aset (mergedPayload spec inputData) "Driving_Cycle"
              (aset (aset (aset dcM "Time_s" .null) "Speed_mps" .null)
                "Altitude_m" (.num 0))) : Except BuildErr GObj) = .ok t3 := h3
          simp only [Except.ok.injEq] at h3'
          subst h3'
          rw [hstd] at h4
          obtain ⟨vl, ht4, hvl⟩ := scenarioStep_true_fields h4
          subst ht4
          have hT1sd : alookup (aset (mergedPayload spec inputData) "Driving_Cycle"
              (aset (aset (aset dcM "Time_s" .null) "Speed_mps" .null)
                "Altitude_m" (.num 0))) "Scenario_data" =
              some (keyedMap (mergeField (buildFieldMaps spec).calculatedKeys "Scenario_data"
                ((alookup (mapInputToBackend (buildFieldMaps spec).uiMap inputData)
                  "Scenario_data").getD [])) tsd) := by
            rw [alookup_aset_other _ (by decide)]
            exact hsdM
          refine ⟨?_, ?_, ?_, ?_, ?_, ?_, ?_, ?_⟩
          · rw [scrub_gkey_other _ _ hkfT,
                groupKey_congr (energyStep_alookup_other (by decide)),
                groupKey_congr (chargerStep_alookup_other (by decide)),
                ecoStep_gkey_other h5 (Or.inr (by decide)),
                groupKey_congr (alookup_aset_other _ (by decide) _)]
            unfold groupKey
            rw [alookup_aset_self]
            simp only [Option.some_bind]
            rw [alookup_aset_other _ (by decide), alookup_aset_other _ (by decide)]
            exact alookup_aset_self _ _ _
          · rw [scrub_gkey_other _ _ hkfS,
                groupKey_congr (energyStep_alookup_other (by decide)),
                groupKey_congr (chargerStep_alookup_other (by decide)),
                ecoStep_gkey_other h5 (Or.inr (by decide)),
                groupKey_congr (alookup_aset_other _ (by decide) _)]
            unfold groupKey
            rw [alookup_aset_self]
            simp only [Option.some_bind]
            rw [alookup_aset_other _ (by decide)]
            exact alookup_aset_self _ _ _
          · rw [scrub_gkey_other _ _ hkfA,
                groupKey_congr (energyStep_alookup_other (by decide)),
                groupKey_congr (chargerStep_alookup_other (by decide)),
                ecoStep_gkey_other h5 (Or.inr (by decide)),
                groupKey_congr (alookup_aset_other _ (by decide) _)]
            unfold groupKey
            rw [alookup_aset_self]
            simp only [Option.some_bind]
            exact alookup_aset_self _ _ _
          · apply scrub_group_isSome
            rw [energyStep_alookup_other (by decide),
                chargerStep_alookup_other (by decide),
                ecoStep_alookup_group_other h5 (by decide),
                alookup_aset_self]
            rfl
          · intro homit
            rw [scrub_gkey_other _ _ hkfVL,
                groupKey_congr (energyStep_alookup_other (by decide)),
                groupKey_congr (chargerStep_alookup_other (by decide)),
                ecoStep_gkey_other h5 (Or.inl (by decide))]
            unfold groupKey
            rw [alookup_aset_self]
            simp only [Option.some_bind]
            have hsdread : alookup ((alookup (aset (mergedPayload spec inputData)
                "Driving_Cycle" (aset (aset (aset dcM "Time_s" .null) "Speed_mps" .null)
                  "Altitude_m" (.num 0))) "Scenario_data").getD []) "VehicleLength" =
                some vlDef := by
              rw [hT1sd]
              simp only [Option.getD_some]
              rw [alookup_keyedMap, htVL]
              simp only [Option.map_some']
              rw [mergeField_of_absent homit]
            have hvlval : vl = vlDef := by
              rcases hvl with hleft | ⟨hnone, tsd2, htsd2, hvleq⟩
              · rw [hsdread] at hleft
                exact nonNullish_some_eq hleft
              · rw [hTsd] at htsd2
                simp only [Option.some.injEq] at htsd2
                subst htsd2
                rw [htVL] at hvleq
                simpa using hvleq
            rw [show alookup [("VehicleLength", vl),
                ("Return_Trip_Distance_km", (nonNullish (alookup ((alookup
                  (aset (mergedPayload spec inputData) "Driving_Cycle"
                    (aset (aset (aset dcM "Time_s" .null) "Speed_mps" .null)
                      "Altitude_m" (.num 0))) "Scenario_data").getD [])
                  "Return_Trip_Distance_km")).getD (.num 0)),
                ("Number_of_Buses_in_Fleet", (nonNullish (alookup ((alookup
                  (aset (mergedPayload spec inputData) "Driving_Cycle"
                    (aset (aset (aset dcM "Time_s" .null) "Speed_mps" .null)
                      "Altitude_m" (.num 0))) "Scenario_data").getD [])
                  "Number_of_Buses_in_Fleet")).getD (.num 0)),
                ("Average_Velocity_of_Route_kph", (nonNullish (alookup ((alookup
                  (aset (mergedPayload spec inputData) "Driving_Cycle"
                    (aset (aset (aset dcM "Time_s" .null) "Speed_mps" .null)
                      "Altitude_m" (.num 0))) "Scenario_data").getD [])
                  "Average_Velocity_of_Route_kph")).getD (.num 0))]
                "VehicleLength" = some vl from by simp [alookup]]
            rw [hvlval]
          · intro homit
            rw [scrub_gkey_other _ _ hkfRT,
                groupKey_congr (energyStep_alookup_other (by decide)),
                groupKey_congr (chargerStep_alookup_other (by decide)),
                ecoStep_gkey_other h5 (Or.inl (by decide))]
            unfold groupKey
            rw [alookup_aset_self]
            simp only [Option.some_bind]
            have hsdread : alookup ((alookup (aset (mergedPayload spec inputData)
                "Driving_Cycle" (aset (aset (aset dcM "Time_s" .null) "Speed_mps" .null)
                  "Altitude_m" (.num 0))) "Scenario_data").getD [])
                "Return_Trip_Distance_km" = alookup tsd "Return_Trip_Distance_km" := by
              rw [hT1sd]
              simp only [Option.getD_some]
              rw [alookup_keyedMap]
              cases h : alookup tsd "Return_Trip_Distance_km" with
              | none => rfl
              | some d =>
                simp only [Option.map_some']
                rw [mergeField_of_absent homit]
            simp only [alookup, if_false, if_true]
            rw [hsdread, hnRT]
            rfl
          · intro homit
            rw [scrub_gkey_other _ _ hkfNB,
                groupKey_congr (energyStep_alookup_other (by decide)),
                groupKey_congr (chargerStep_alookup_other (by decide)),
                ecoStep_gkey_other h5 (Or.inl (by decide))]
            unfold groupKey
            rw [alookup_aset_self]
            simp only [Option.some_bind]
            have hsdread : alookup ((alookup (aset (mergedPayload spec inputData)
                "Driving_Cycle" (aset (aset (aset dcM "Time_s" .null) "Speed_mps" .null)
                  "Altitude_m" (.num 0))) "Scenario_data").getD [])
                "Number_of_Buses_in_Fleet" = alookup tsd "Number_of_Buses_in_Fleet" := by
              rw [hT1sd]
              simp only [Option.getD_some]
              rw [alookup_keyedMap]
              cases h : alookup tsd "Number_of_Buses_in_Fleet" with
              | none => rfl
              | some d =>
                simp only [Option.map_some']
                rw [mergeField_of_absent homit]
            simp only [alookup, if_false, if_true]
            rw [hsdread, hnNB]
            rfl
          · intro homit
            rw [scrub_gkey_other _ _ hkfAV,
                groupKey_congr (energyStep_alookup_other (by decide)),
                groupKey_congr (chargerStep_alookup_other (by decide)),
                ecoStep_gkey_other h5 (Or.inl (by decide))]
            unfold groupKey
            rw [alookup_aset_self]
            simp only [Option.some_bind]
            have hsdread : alookup ((alookup (aset (mergedPayload spec inputData)
                "Driving_Cycle" (aset (aset (aset dcM "Time_s" .null) "Speed_mps" .null)
                  "Altitude_m" (.num 0))) "Scenario_data").getD [])
                "Average_Velocity_of_Route_kph" = alookup tsd "Average_Velocity_of_Route_kph" := by
              rw [hT1sd]
              simp only [Option.getD_some]
              rw [alookup_keyedMap]
              cases h : alookup tsd "Average_Velocity_of_Route_kph" with
              | none => rfl
              | some d =>
                simp only [Option.map_some']
                rw [mergeField_of_absent homit]
            simp only [alookup, if_false, if_true]
            rw [hsdread, hnAV]
            rfl

def standardProbeInput : JVal :=
  .obj [("Driving_Cycle", .obj
    [("Cycle_Type", .num 2), ("Time_s", .arr [.num 0, .num 1]), ("Altitude_m", .num 7)])]

/-- Witness for C7: a Standard input (code 2) supplying a time series and
an altitude that the branch must force away, omitting every
`Scenario_data` field. -/
theorem c7_standard_cycle_forcing_witness :
    isOkB (buildBackendPayload SPEC standardProbeInput) = true ∧
    resultGroupKey (buildBackendPayload SPEC standardProbeInput)
      "Driving_Cycle" "Time_s" = some .null ∧
    resultGroupKey (buildBackendPayload SPEC standardProbeInput)
      "Driving_Cycle" "Altitude_m" = some (.num 0) ∧
    resultGroupKey (buildBackendPayload SPEC standardProbeInput)
      "Scenario_data" "VehicleLength" = some (.num 12) ∧
    resultGroupKey (buildBackendPayload SPEC standardProbeInput)
      "Scenario_data" "Return_Trip_Distance_km" = some (.num 0) := by
  refine ⟨rfl, ?_, ?_, ?_, ?_⟩ <;>
  · cases hok : buildBackendPayload SPEC standardProbeInput with
    | error e =>
      have hfalse : isOkB (Except.error e : Except BuildErr GObj) = true := by
        rw [← hok]; rfl
      exact absurd hfalse (by simp [isOkB])
    | ok p =>
      have h := c7_standard_cycle_forcing SPEC standardProbeInput p
        [("VehicleLength", .num 12), ("Return_Trip_Distance_km", .null),
         ("Number_of_Buses_in_Fleet", .null), ("Average_Velocity_of_Route_kph", .null)]
        (.num 12) rfl hok rfl rfl rfl rfl rfl
        (by decide) (by decide) (by decide) (by decide) (by decide) (by decide) (by decide)
      simp only [resultGroupKey]
      first
        | exact h.1
        | exact h.2.1
        | exact h.2.2.1
        | exact h.2.2.2.2.1 rfl
        | exact h.2.2.2.2.2.1 rfl
